import Mathlib

/-!
# Custom-resource providers of the centralised egress proxy

A shallow embedding of the two stateful CloudFormation custom-resource
providers of the repository,

* `src/constructs/vpc-endpoint-configurator/main.go` (namespace `VpcEndpointConfigurator`),
* `src/constructs/webhook-manager-fn/main.go` (namespace `WebhookManager`),

and of the push filter of `src/constructs/trigger-fn/main.go` (namespace
`TriggerFn`), together with the pieces of the Go standard library and of the
AWS / GitHub client libraries that they call.

Conventions of the embedding.

* A Go `string` is a Lean `String`.  Both separators are one ASCII byte, and the
  decimal parser rejects every byte outside `'0'..'9'`, so reading a string
  character by character or byte by byte gives the same segments and numbers.
* A Go pointer that the code may find nil is an `Option`; dereferencing `none`
  is the run-time panic of Go.
* A Go `error` is its message, and a nil-able error is an `Option String`.
* The remote systems are a record of functions (the answer of every remote
  operation to every input); a handler returns the list of effects it performed,
  in order, together with the way it ended.
-/

set_option autoImplicit false
set_option linter.dupNamespace false

/-! ## Go standard library -/

namespace strings

/-- Scanning loop of `strings.Split` for a non-empty separator: `skip` counts the
characters of a matched separator that are still to be dropped, `cur` is the
segment read so far. -/
def splitGo (sep : List Char) : Nat → List Char → List Char → List (List Char)
  | _, [], cur => [cur]
  | skip + 1, _ :: cs, cur => splitGo sep skip cs cur
  | 0, c :: cs, cur =>
    if sep.isPrefixOf (c :: cs) then cur :: splitGo sep (sep.length - 1) cs []
    else splitGo sep 0 cs (cur ++ [c])

/-- Go `strings.Split(s, sep)`: the segments of `s` between the occurrences of
`sep`, found left to right; an empty `sep` explodes `s` into its characters. -/
def Split (s sep : String) : List String :=
  if sep.data = [] then s.data.map fun c => String.mk [c]
  else (splitGo sep.data 0 s.data []).map String.mk

/-- Go `strings.HasPrefix(s, p)`. -/
def HasPrefix (s p : String) : Bool :=
  p.data.isPrefixOf s.data

end strings

namespace strconv

/-- The two kinds of `*strconv.NumError`. -/
inductive NumError where
  | ErrSyntax
  | ErrRange
  deriving DecidableEq, Repr

/-- Two to the sixty-fourth, the modulus of `uint64` arithmetic. -/
def two64 : Nat := 18446744073709551616

/-- The constant `maxUint64`. -/
def maxUint64 : Nat := two64 - 1

/-- The digit value of a byte in `ParseUint`: `c - '0'` for `'0' ≤ c ≤ '9'`.  Every
other byte is either a letter, whose value is at least ten, or no digit at all;
in base ten both are syntax errors, so both are `none` here. -/
def digitVal (c : Char) : Option Nat :=
  if 48 ≤ c.toNat ∧ c.toNat ≤ 57 then some (c.toNat - 48) else none

/-- The loop of `strconv.ParseUint(s, 10, 64)` from accumulator `n`: the value and
the error, as Go returns them. -/
def parseUintLoop : List Char → Nat → Nat × Option NumError
  | [], n => (n, none)
  | c :: cs, n =>
    match digitVal c with
    | none => (0, some NumError.ErrSyntax)
    | some d =>
      -- cutoff = maxUint64/10 + 1
      if n ≥ maxUint64 / 10 + 1 then (maxUint64, some NumError.ErrRange)
      else
        let n10 := (n * 10) % two64
        let n1 := (n10 + d) % two64
        if n1 < n10 ∨ n1 > maxUint64 then (maxUint64, some NumError.ErrRange)
        else parseUintLoop cs n1

/-- Model of `strconv.ParseUint(s, 10, 64)`. -/
def ParseUint (s : List Char) : Nat × Option NumError :=
  if s = [] then (0, some NumError.ErrSyntax) else parseUintLoop s 0

/-- Model of `strconv.ParseInt(s, 10, 64)`: the value and the error, as Go returns
them (`cutoff` is `1 << 63`). -/
def ParseInt (s : String) : Int × Option NumError :=
  match s.data with
  | [] => (0, some NumError.ErrSyntax)
  | c :: cs =>
    let neg : Bool := c = '-'
    let body : List Char := if c = '+' ∨ c = '-' then cs else c :: cs
    match ParseUint body with
    | (_, some NumError.ErrSyntax) => (0, some NumError.ErrSyntax)
    | (un, _) =>
      let cutoff : Nat := 9223372036854775808
      if ¬ neg ∧ un ≥ cutoff then ((cutoff : Int) - 1, some NumError.ErrRange)
      else if neg ∧ un > cutoff then (-(cutoff : Int), some NumError.ErrRange)
      else if neg then (-(un : Int), none) else ((un : Int), none)

/-- The character of a decimal digit. -/
def digitChar (d : Nat) : Char := Char.ofNat (48 + d)

/-- Decimal digits of `n`, most significant first, in front of `acc`; `fuel`
bounds the number of digits. -/
def formatBits : Nat → Nat → List Char → List Char
  | 0, _, acc => acc
  | fuel + 1, n, acc =>
    if n < 10 then digitChar n :: acc
    else formatBits fuel (n / 10) (digitChar (n % 10) :: acc)

/-- Decimal text of a natural number, as `strconv.FormatUint(n, 10)`. -/
def FormatUint (n : Nat) : String := String.mk (formatBits (n + 1) n [])

/-- Decimal text of an integer, as `strconv.FormatInt(i, 10)` and the verb `%d`
of `fmt.Sprintf`: a minus sign for a negative number, then the digits of its
magnitude. -/
def FormatInt (i : Int) : String :=
  if i < 0 then "-" ++ FormatUint i.natAbs else FormatUint i.natAbs

end strconv

/-! ## The CloudFormation custom-resource library (`aws-lambda-go/cfn`) -/

namespace cfn

/-- A JSON value, the dynamic content of an `interface{}` decoded from the event. -/
inductive Value where
  | null
  | bool (b : Bool)
  | number (n : Int)
  | string (s : String)
  | list (xs : List Value)
  | object (kvs : List (String × Value))

/-- The type assertion `d.(string)` in its comma-ok form. -/
def Value.asString : Value → Option String
  | Value.string s => some s
  | _ => none

/-- The type assertion `d.([]interface{})` in its comma-ok form. -/
def Value.asList : Value → Option (List Value)
  | Value.list xs => some xs
  | _ => none

/-- A Go `map[string]interface{}` as an association list; a nil map and an empty
map are both `[]` (the providers only read, range over and serialise them, where
Go treats the two alike). -/
abbrev Map := List (String × Value)

/-- Reading `m[k]` with the comma-ok form. -/
def Map.get (m : Map) (k : String) : Option Value :=
  m.lookup k

/-- The assignment `m[k] = v`: the value of an existing key is replaced in
place, a new key is added. -/
def Map.set : Map → String → Value → Map
  | [], k, v => [(k, v)]
  | (k0, v0) :: m, k, v => if k0 = k then (k, v) :: m else (k0, v0) :: Map.set m k v

/-- The type `cfn.RequestType`, a string. -/
abbrev RequestType := String

/-- The constant `cfn.RequestCreate`. -/
def RequestCreate : RequestType := "Create"

/-- The constant `cfn.RequestUpdate`. -/
def RequestUpdate : RequestType := "Update"

/-- The constant `cfn.RequestDelete`. -/
def RequestDelete : RequestType := "Delete"

/-- The type `cfn.StatusType`, a string. -/
abbrev StatusType := String

/-- The constant `cfn.StatusSuccess`. -/
def StatusSuccess : StatusType := "SUCCESS"

/-- The constant `cfn.StatusFailed`. -/
def StatusFailed : StatusType := "FAILED"

/-- The struct `cfn.Event`. -/
structure Event where
  RequestType : RequestType
  RequestID : String
  ResponseURL : String
  ResourceType : String
  PhysicalResourceID : String
  LogicalResourceID : String
  StackID : String
  ResourceProperties : Map
  OldResourceProperties : Map

/-- The struct `cfn.Response`, the outcome envelope. -/
structure Response where
  Status : StatusType
  RequestID : String
  LogicalResourceID : String
  StackID : String
  PhysicalResourceID : String
  Reason : String
  NoEcho : Bool
  Data : Map
  url : String

/-- The constructor `cfn.NewResponse`: the identifying fields of the event are
copied, the others are zero. -/
def NewResponse (r : Event) : Response :=
  { Status := ""
    RequestID := r.RequestID
    LogicalResourceID := r.LogicalResourceID
    StackID := r.StackID
    PhysicalResourceID := ""
    Reason := ""
    NoEcho := false
    Data := []
    url := r.ResponseURL }

end cfn

/-- The way one invocation of a handler ends. -/
inductive Outcome where
  /-- The handler returned `(resp, err)`. -/
  | returned (resp : cfn.Response) (err : Option String)
  /-- A run-time panic (nil dereference, failed type assertion). -/
  | panicked
  /-- The call `log.Fatalf` after a failed delivery: the process exits. -/
  | fatal

/-! ## The EC2 client (`aws-sdk-go/service/ec2`)

Only the fields the provider reads or writes are kept.  The elements of the
slices that the client decodes are never nil; a field that is absent from the
answer is a nil pointer, here `none`. -/

namespace ec2

/-- The struct `ec2.PrivateDnsNameConfiguration`. -/
structure PrivateDnsNameConfiguration where
  Name : Option String
  State : Option String
  Type_ : Option String
  Value : Option String

/-- The struct `ec2.ServiceConfiguration`. -/
structure ServiceConfiguration where
  ServiceId : Option String
  ServiceName : Option String
  PrivateDnsNameConfiguration : Option PrivateDnsNameConfiguration

/-- The struct `ec2.AllowedPrincipal`. -/
structure AllowedPrincipal where
  Principal : Option String

/-- The struct `ec2.UnsuccessfulItem`. -/
structure UnsuccessfulItem where
  ResourceId : Option String

/-- The struct `ec2.CreateVpcEndpointServiceConfigurationInput`. -/
structure CreateVpcEndpointServiceConfigurationInput where
  AcceptanceRequired : Bool
  NetworkLoadBalancerArns : List String
  PrivateDnsName : String

/-- The struct `ec2.CreateVpcEndpointServiceConfigurationOutput`. -/
structure CreateVpcEndpointServiceConfigurationOutput where
  ServiceConfiguration : Option ServiceConfiguration

/-- The struct `ec2.ModifyVpcEndpointServicePermissionsInput`; a batch that was
never assigned is `none`. -/
structure ModifyVpcEndpointServicePermissionsInput where
  ServiceId : Option String
  AddAllowedPrincipals : Option (List String)
  RemoveAllowedPrincipals : Option (List String)

/-- The struct `ec2.ModifyVpcEndpointServiceConfigurationInput`. -/
structure ModifyVpcEndpointServiceConfigurationInput where
  ServiceId : String
  AcceptanceRequired : Bool
  PrivateDnsName : String

end ec2

/-! ## The endpoint-service provider (`vpc-endpoint-configurator/main.go`) -/

namespace VpcEndpointConfigurator

/-- The constant `PhyIdSeparator`. -/
def PhyIdSeparator : String := ":"

/-- The struct `Config`. -/
structure Config where
  NetworkLoadBalancerArns : List String
  AllowedPrincipals : List String
  AcceptanceRequired : Bool
  PrivateDnsName : String

/-- One request to the remote resource API, with its input. -/
inductive Call where
  | DeleteVpcEndpointServiceConfigurations (ServiceIds : List String)
  | DescribeVpcEndpointServiceConfigurations (ServiceIds : List String)
  | DescribeVpcEndpointServicePermissions (ServiceId : String)
  | ModifyVpcEndpointServicePermissions (input : ec2.ModifyVpcEndpointServicePermissionsInput)
  | ModifyVpcEndpointServiceConfiguration (input : ec2.ModifyVpcEndpointServiceConfigurationInput)
  | CreateVpcEndpointServiceConfiguration (input : ec2.CreateVpcEndpointServiceConfigurationInput)

/-- What a handler does to the outside, in order. -/
inductive Effect where
  /-- A request to the remote resource API. -/
  | call (c : Call)
  /-- The attempt `resp.Send()` to deliver an envelope. -/
  | send (resp : cfn.Response)

/-- The collaborators of the provider: the answer of every remote operation to
every input (`Except.error` and `some` carry the message of a non-nil `err`), and
that of the reporting transport. -/
structure World where
  DeleteVpcEndpointServiceConfigurations : List String → Except String (List ec2.UnsuccessfulItem)
  DescribeVpcEndpointServiceConfigurations : List String → Except String (List ec2.ServiceConfiguration)
  DescribeVpcEndpointServicePermissions : String → Except String (List ec2.AllowedPrincipal)
  ModifyVpcEndpointServicePermissions : ec2.ModifyVpcEndpointServicePermissionsInput → Option String
  ModifyVpcEndpointServiceConfiguration : ec2.ModifyVpcEndpointServiceConfigurationInput → Option String
  CreateVpcEndpointServiceConfiguration :
    ec2.CreateVpcEndpointServiceConfigurationInput → Except String ec2.CreateVpcEndpointServiceConfigurationOutput
  Send : cfn.Response → Option String

/-- One invocation: the effects performed, in order, and the way it ended. -/
structure Run where
  trace : List Effect
  out : Outcome

/-- The function `buildResponse`. -/
def buildResponse (evt : cfn.Event) (status : cfn.StatusType) (reason : String)
    (serviceId : Option String) (data : cfn.Map) : cfn.Response :=
  let resp := { cfn.NewResponse evt with Status := status, Reason := reason, Data := data }
  if evt.PhysicalResourceID ≠ "" then
    { resp with PhysicalResourceID := evt.PhysicalResourceID }
  else
    match serviceId with
    | some id => { resp with PhysicalResourceID := "VpcEndpointService" ++ PhyIdSeparator ++ id }
    | none => { resp with PhysicalResourceID := "VpcEndpointService" }

/-- The closing steps shared by every branch of the handlers,
`if e := resp.Send(); e != nil { log.Fatalf(...) }` followed by what the branch
does next (`next`): after the effects `pre`, delivery of `resp` is attempted; a
failed delivery exits the process. -/
def sendThen (w : World) (pre : List Effect) (resp : cfn.Response) (next : Outcome) : Run :=
  { trace := pre ++ [Effect.send resp]
    out := match w.Send resp with
      | some _ => Outcome.fatal
      | none => next }

/-- The function `deleteHandler`. -/
def deleteHandler (w : World) (_config : Config) (evt : cfn.Event) : Run :=
  let phyResId := strings.Split evt.PhysicalResourceID PhyIdSeparator
  if phyResId.length < 2 then
    let resp := buildResponse evt cfn.StatusSuccess
      ("could not reach service id from physical resource id: " ++ evt.PhysicalResourceID) none []
    sendThen w [] resp (Outcome.returned resp none)
  else
    let serviceId := phyResId.getD 1 ""
    let t1 := [Effect.call (Call.DeleteVpcEndpointServiceConfigurations [serviceId])]
    match w.DeleteVpcEndpointServiceConfigurations [serviceId] with
    | Except.error err =>
      let resp := buildResponse evt cfn.StatusFailed
        ("could not erase vpc endpoint configuration: " ++ err) (some serviceId) []
      sendThen w t1 resp (Outcome.returned resp none)
    | Except.ok unsuccessful =>
      if unsuccessful.length ≠ 0 then
        let resp := buildResponse evt cfn.StatusFailed
          "unsuccessful in erasing vpc endpoint configuration. please see logs" (some serviceId) []
        sendThen w t1 resp (Outcome.returned resp none)
      else
        let r := buildResponse evt cfn.StatusSuccess "deleted successfully" (some serviceId)
          evt.ResourceProperties
        sendThen w t1 r (Outcome.returned r none)

/-- The map literal `output` of `updateHandler` (lines 215-222) followed by the
loop that copies the declared properties over it (lines 223-225); `none` is the
panic of a nil dereference in the literal. -/
def updateOutput (serviceId : String) (sc : ec2.ServiceConfiguration) (props : cfn.Map) :
    Option cfn.Map := do
  let serviceName ← sc.ServiceName
  let dns ← sc.PrivateDnsNameConfiguration
  let name ← dns.Name
  let type ← dns.Type_
  let value ← dns.Value
  let state ← dns.State
  let output : cfn.Map :=
    [ ("ServiceId", cfn.Value.string serviceId),
      ("ServiceName", cfn.Value.string serviceName),
      ("PrivateDnsNameConfigurationName", cfn.Value.string name),
      ("PrivateDnsNameConfigurationType", cfn.Value.string type),
      ("PrivateDnsNameConfigurationValue", cfn.Value.string value),
      ("PrivateDnsNameConfigurationState", cfn.Value.string state) ]
  pure (props.foldl (fun out kv => cfn.Map.set out kv.1 kv.2) output)

/-- A Go `map[string]struct{}` used as a set: its keys, each once. -/
abbrev StringSet := List String

/-- The assignment `m[k] = struct{}{}`. -/
def StringSet.insert (m : StringSet) (k : String) : StringSet :=
  if k ∈ m then m else m ++ [k]

/-- The builtin `delete(m, k)`. -/
def StringSet.delete (m : StringSet) (k : String) : StringSet :=
  m.filter fun x => x ≠ k

/-- The loop over `resp.AllowedPrincipals` (lines 247-254): a principal that is
not a key of `addPrincipals` goes to `removePrincipals`, one that is a key is
deleted from `addPrincipals`; `none` is the panic of a nil `Principal`. -/
def reconcileLoop : List ec2.AllowedPrincipal → StringSet → StringSet → Option (StringSet × StringSet)
  | [], addPrincipals, removePrincipals => some (addPrincipals, removePrincipals)
  | v :: rest, addPrincipals, removePrincipals =>
    match v.Principal with
    | none => none
    | some p =>
      if p ∉ addPrincipals then reconcileLoop rest addPrincipals (removePrincipals.insert p)
      else reconcileLoop rest (addPrincipals.delete p) removePrincipals

/-- The delta of `updateHandler` (lines 241-263): `addPrincipalsSlice` and
`removePrincipalsSlice`.  Go ranges over a map in an unspecified order; the
slices are given here in one order, and only their elements matter. -/
def principalDelta (allowedPrincipals : List String) (observed : List ec2.AllowedPrincipal) :
    Option (List String × List String) :=
  let addPrincipals : StringSet := allowedPrincipals.foldl StringSet.insert []
  reconcileLoop observed addPrincipals []

/-- The function `updateHandler`. -/
def updateHandler (w : World) (config : Config) (evt : cfn.Event) : Run :=
  let phyResId := strings.Split evt.PhysicalResourceID PhyIdSeparator
  if phyResId.length < 2 then
    let resp := buildResponse evt cfn.StatusSuccess
      ("could not reach service id from physical resource id: " ++ evt.PhysicalResourceID) none []
    sendThen w [] resp (Outcome.returned resp none)
  else
    let serviceId := phyResId.getD 1 ""
    let t1 := [Effect.call (Call.DescribeVpcEndpointServiceConfigurations [serviceId])]
    match w.DescribeVpcEndpointServiceConfigurations [serviceId] with
    | Except.error err =>
      let resp := buildResponse evt cfn.StatusFailed
        ("error in describing vpc endpoint: " ++ err) (some serviceId) []
      sendThen w t1 resp (Outcome.returned resp (some ("error in describing vpc endpoint: " ++ err)))
    | Except.ok [] =>
      let resp := buildResponse evt cfn.StatusFailed "service configurations array is empty"
        (some serviceId) []
      -- `err.Error()` on the nil `err` of the successful read (line 212)
      sendThen w t1 resp Outcome.panicked
    | Except.ok (sc :: _) =>
      match updateOutput serviceId sc evt.ResourceProperties with
      | none => { trace := t1, out := Outcome.panicked }
      | some output =>
        let t2 := t1 ++ [Effect.call (Call.DescribeVpcEndpointServicePermissions serviceId)]
        match w.DescribeVpcEndpointServicePermissions serviceId with
        | Except.error err =>
          let resp := buildResponse evt cfn.StatusFailed
            ("error in describing vpc endpoint permissions: " ++ err) (some serviceId) output
          sendThen w t2 resp
            (Outcome.returned resp (some ("error in describing vpc endpoint permissions: " ++ err)))
        | Except.ok allowed =>
          match principalDelta config.AllowedPrincipals allowed with
          | none => { trace := t2, out := Outcome.panicked }
          | some (addPrincipalsSlice, removePrincipalsSlice) =>
            let permissionsInput : ec2.ModifyVpcEndpointServicePermissionsInput :=
              { ServiceId := some serviceId
                AddAllowedPrincipals :=
                  if addPrincipalsSlice.length ≠ 0 then some addPrincipalsSlice else none
                RemoveAllowedPrincipals :=
                  if removePrincipalsSlice.length ≠ 0 then some removePrincipalsSlice else none }
            let t3 := t2 ++ [Effect.call (Call.ModifyVpcEndpointServicePermissions permissionsInput)]
            match w.ModifyVpcEndpointServicePermissions permissionsInput with
            | some err =>
              let resp := buildResponse evt cfn.StatusFailed
                ("error in configuring vpc principals: " ++ err) (some serviceId) output
              sendThen w t3 resp
                (Outcome.returned resp (some ("error in configuring vpc principals: " ++ err)))
            | none =>
              let configInput : ec2.ModifyVpcEndpointServiceConfigurationInput :=
                { ServiceId := serviceId
                  AcceptanceRequired := config.AcceptanceRequired
                  PrivateDnsName := config.PrivateDnsName }
              let t4 := t3 ++ [Effect.call (Call.ModifyVpcEndpointServiceConfiguration configInput)]
              match w.ModifyVpcEndpointServiceConfiguration configInput with
              | some err =>
                let resp := buildResponse evt cfn.StatusFailed
                  ("error in configuring vpc endpoint: " ++ err) (some serviceId) output
                sendThen w t4 resp
                  (Outcome.returned resp (some ("error in configuring vpc endpoint: " ++ err)))
              | none =>
                let r := buildResponse evt cfn.StatusSuccess "updated successfully" (some serviceId)
                  output
                sendThen w t4 r (Outcome.returned r none)

/-- The map literal in the last `buildResponse` of `createHandler` (lines
353-358); `none` is the panic of a nil dereference. -/
def createOutput (sc : ec2.ServiceConfiguration) : Option cfn.Map := do
  let serviceId ← sc.ServiceId
  let serviceName ← sc.ServiceName
  let dns ← sc.PrivateDnsNameConfiguration
  let name ← dns.Name
  let type ← dns.Type_
  let value ← dns.Value
  let state ← dns.State
  pure
    [ ("ServiceId", cfn.Value.string serviceId),
      ("ServiceName", cfn.Value.string serviceName),
      ("PrivateDnsNameConfigurationName", cfn.Value.string name),
      ("PrivateDnsNameConfigurationType", cfn.Value.string type),
      ("PrivateDnsNameConfigurationValue", cfn.Value.string value),
      ("PrivateDnsNameConfigurationState", cfn.Value.string state) ]

/-- The function `createHandler`. -/
def createHandler (w : World) (config : Config) (evt : cfn.Event) : Run :=
  let createInput : ec2.CreateVpcEndpointServiceConfigurationInput :=
    { AcceptanceRequired := config.AcceptanceRequired
      NetworkLoadBalancerArns := config.NetworkLoadBalancerArns
      PrivateDnsName := config.PrivateDnsName }
  let t1 := [Effect.call (Call.CreateVpcEndpointServiceConfiguration createInput)]
  match w.CreateVpcEndpointServiceConfiguration createInput with
  | Except.error err =>
    let resp := buildResponse evt cfn.StatusFailed ("error in creating vpc endpoint: " ++ err) none []
    sendThen w t1 resp (Outcome.returned resp (some ("error in creating vpc endpoint: " ++ err)))
  | Except.ok resp =>
    match resp.ServiceConfiguration with
    | none => { trace := t1, out := Outcome.panicked }
    | some sc =>
      let permissionsInput : ec2.ModifyVpcEndpointServicePermissionsInput :=
        { ServiceId := sc.ServiceId
          AddAllowedPrincipals := some config.AllowedPrincipals
          RemoveAllowedPrincipals := none }
      let t2 := t1 ++ [Effect.call (Call.ModifyVpcEndpointServicePermissions permissionsInput)]
      match w.ModifyVpcEndpointServicePermissions permissionsInput with
      | some err =>
        let resp := buildResponse evt cfn.StatusFailed
          ("error in configuring vpc principals: " ++ err) sc.ServiceId []
        sendThen w t2 resp
          (Outcome.returned resp (some ("error in configuring vpc principals: " ++ err)))
      | none =>
        match createOutput sc with
        | none => { trace := t2, out := Outcome.panicked }
        | some data =>
          let r := buildResponse evt cfn.StatusSuccess "created successfully" sc.ServiceId data
          sendThen w t2 r (Outcome.returned r none)

/-- The generic function `readProperty[T]`; `assertT` is the type assertion
`d.(T)` of the instance. -/
def readProperty {T : Type} (assertT : cfn.Value → Option T) (evt : cfn.Event)
    (propertyName : String) : Except String T :=
  match evt.ResourceProperties.get propertyName with
  | none => Except.error ("could not find " ++ propertyName)
  | some d =>
    match assertT d with
    | none => Except.error ("property " ++ propertyName ++ " is not the generic type T")
    | some v => Except.ok v

/-- The three ways `readResourceProperties` ends: with the configuration, with
the name of the failing field and the error, or in a panic. -/
inductive ReadResult where
  | ok (config : Config)
  | failed (field : String) (err : String)
  | panicked

/-- The loops `for _, v := range *xs { out = append(out, v.(string)) }` (lines
43-50); `none` is the panic of the failed one-value assertion `v.(string)`. -/
def assertStrings : List cfn.Value → Option (List String)
  | [] => some []
  | v :: rest =>
    match v.asString with
    | none => none
    | some s =>
      match assertStrings rest with
      | none => none
      | some out => some (s :: out)

/-- The function `readResourceProperties`. -/
def readResourceProperties (evt : cfn.Event) : ReadResult :=
  match readProperty cfn.Value.asList evt "NetworkLoadBalancerArns" with
  | Except.error err => ReadResult.failed "NetworkLoadBalancerArns" err
  | Except.ok networkLoadBalancerArns =>
    match readProperty cfn.Value.asList evt "AllowedPrincipals" with
    | Except.error err => ReadResult.failed "AllowedPrincipals" err
    | Except.ok allowedPrincipals =>
      match readProperty cfn.Value.asString evt "AcceptanceRequired" with
      | Except.error err => ReadResult.failed "AcceptanceRequired" err
      | Except.ok acceptanceRequired =>
        match readProperty cfn.Value.asString evt "PrivateDnsName" with
        | Except.error err => ReadResult.failed "PrivateDnsName" err
        | Except.ok privateDnsName =>
          match assertStrings networkLoadBalancerArns with
          | none => ReadResult.panicked
          | some nlbArns =>
            match assertStrings allowedPrincipals with
            | none => ReadResult.panicked
            | some arns =>
              ReadResult.ok
                { NetworkLoadBalancerArns := nlbArns
                  AcceptanceRequired := if acceptanceRequired = "true" then true else false
                  AllowedPrincipals := arns
                  PrivateDnsName := privateDnsName }

/-- The function `readPropertyErrorHandler`. -/
def readPropertyErrorHandler (w : World) (evt : cfn.Event) (propertyName : String) (err : String) :
    Run :=
  let resp := buildResponse evt cfn.StatusFailed ("error in reading property: " ++ propertyName)
    none []
  sendThen w [] resp
    (Outcome.returned resp (some ("error in reading " ++ propertyName ++ ": " ++ err)))

/-- The function `handler`. -/
def handler (w : World) (evt : cfn.Event) : Run :=
  match readResourceProperties evt with
  | ReadResult.failed field err => readPropertyErrorHandler w evt field err
  | ReadResult.panicked => { trace := [], out := Outcome.panicked }
  | ReadResult.ok config =>
    if evt.RequestType = cfn.RequestUpdate then updateHandler w config evt
    else if evt.RequestType = cfn.RequestCreate then createHandler w config evt
    else if evt.RequestType = cfn.RequestDelete then deleteHandler w config evt
    else
      let resp := buildResponse evt cfn.StatusFailed "encountered unreachable branch" none []
      sendThen w [] resp (Outcome.returned resp none)

/-- The requests to the remote resource API among the effects, in order. -/
def calls : List Effect → List Call
  | [] => []
  | Effect.call c :: rest => c :: calls rest
  | Effect.send _ :: rest => calls rest

/-- The envelopes whose delivery was attempted, in order. -/
def sends : List Effect → List cfn.Response
  | [] => []
  | Effect.call _ :: rest => sends rest
  | Effect.send resp :: rest => resp :: sends rest

/-- The expected kind of a declared property, in the words of the specification
of the reader. -/
inductive Kind where
  | string
  | stringList

/-- Whether a dynamic value has the kind, as far as the reader checks it before
it returns an error: a string, or a list (of anything). -/
def Kind.holds : Kind → cfn.Value → Bool
  | Kind.string, cfn.Value.string _ => true
  | Kind.stringList, cfn.Value.list _ => true
  | _, _ => false

/-- The schema of the endpoint-service provider, in reading order. -/
def schema : List (String × Kind) :=
  [ ("NetworkLoadBalancerArns", Kind.stringList),
    ("AllowedPrincipals", Kind.stringList),
    ("AcceptanceRequired", Kind.string),
    ("PrivateDnsName", Kind.string) ]

/-- Whether the declared property `p.1` is missing or has not the kind `p.2`. -/
def failing (evt : cfn.Event) (p : String × Kind) : Bool :=
  match evt.ResourceProperties.get p.1 with
  | none => true
  | some v => !p.2.holds v

/-- The first key of the schema that is missing or mistyped in the event, in the
words of the specification of the reader. -/
def firstFailing (evt : cfn.Event) : Option String :=
  (schema.find? (failing evt)).map fun p => p.1

/-- The answer of a permission read that lists the principals `ps`, each with its
`Principal` field present. -/
def observedOf (ps : List String) : List ec2.AllowedPrincipal :=
  ps.map fun p => { Principal := some p }

/-- The inputs of the permission-modifying calls
(`ModifyVpcEndpointServicePermissions`) among the effects, in order. -/
def permissionCalls : List Effect → List ec2.ModifyVpcEndpointServicePermissionsInput
  | [] => []
  | Effect.call (Call.ModifyVpcEndpointServicePermissions input) :: rest => input :: permissionCalls rest
  | _ :: rest => permissionCalls rest

end VpcEndpointConfigurator

/-! ## The GitHub client (`google/go-github`) -/

namespace http

/-- The struct `http.Response`, of which the provider reads the status code. -/
structure Response where
  StatusCode : Int

end http

namespace github

/-- The struct `github.Hook`: the fields the provider writes (`Config`,
`Events`) and reads (`ID`, a nil-able `*int64`). -/
structure Hook where
  ID : Option Int
  Config : cfn.Map
  Events : List String

/-- The struct `github.Response`, which embeds a `*http.Response`. -/
structure Response where
  Response : Option http.Response

end github

/-! ## The webhook provider (`webhook-manager-fn/main.go`) -/

namespace WebhookManager

/-- The constant `PhyIdSeparator`. -/
def PhyIdSeparator : String := "-"

/-- The struct `Config`. -/
structure Config where
  GithubOwner : String
  GithubRepo : String
  GithubBranch : String
  GithubToken : String
  WebhookURL : String

/-- One request to an external collaborator, with its input. -/
inductive Call where
  | GetSecretValue (SecretId : String)
  | CreateHook (owner repo : String) (hook : github.Hook)
  | DeleteHook (owner repo : String) (id : Int)

/-- What a handler does to the outside, in order. -/
inductive Effect where
  /-- A request to the secret resolver or to the webhook API. -/
  | call (c : Call)
  /-- The attempt `resp.Send()` to deliver an envelope. -/
  | send (resp : cfn.Response)

/-- The three results of `Repositories.CreateHook`.  The client library answers
every HTTP status outside 200-299 with a non-nil `err`, next to the response that
carries the status; the record itself allows any combination. -/
structure CreateHookResult where
  hook : Option github.Hook
  resp : Option github.Response
  err : Option String

/-- The collaborators of the provider: the answer of every remote operation to
every input, and that of the reporting transport.  `GetSecretValue` answers with
the nil-able `SecretString`; `DeleteHook` answers with its error. -/
structure World where
  GetSecretValue : String → Except String (Option String)
  CreateHook : String → String → github.Hook → CreateHookResult
  DeleteHook : String → String → Int → Option String
  Send : cfn.Response → Option String

/-- One invocation: the effects performed, in order, and the way it ended. -/
structure Run where
  trace : List Effect
  out : Outcome

/-- The function `buildResponse`. -/
def buildResponse (evt : cfn.Event) (status : cfn.StatusType) (hookID : Option Int) : cfn.Response :=
  let resp := { cfn.NewResponse evt with Status := status }
  if evt.PhysicalResourceID ≠ "" then
    { resp with PhysicalResourceID := evt.PhysicalResourceID }
  else
    match hookID with
    | some id =>
      { resp with PhysicalResourceID := "githubwebhookmanager" ++ PhyIdSeparator ++ strconv.FormatInt id }
    | none => { resp with PhysicalResourceID := "githubwebhookmanager" }

/-- The closing steps shared by every branch of the handlers,
`if e := resp.Send(); e != nil { log.Fatalf(...) }` followed by what the branch
does next (`next`): after the effects `pre`, delivery of `resp` is attempted; a
failed delivery exits the process. -/
def sendThen (w : World) (pre : List Effect) (resp : cfn.Response) (next : Outcome) : Run :=
  { trace := pre ++ [Effect.send resp]
    out := match w.Send resp with
      | some _ => Outcome.fatal
      | none => next }

/-- The function `deleteHandler`. -/
def deleteHandler (w : World) (config : Config) (evt : cfn.Event) : Run :=
  let phyResId := strings.Split evt.PhysicalResourceID PhyIdSeparator
  if phyResId.length < 2 then
    let resp := buildResponse evt cfn.StatusSuccess none
    sendThen w [] resp (Outcome.returned resp none)
  else
    let hookIdStr := phyResId.getD 1 ""
    match strconv.ParseInt hookIdStr with
    | (_, some _) =>
      let resp := buildResponse evt cfn.StatusSuccess none
      sendThen w [] resp (Outcome.returned resp none)
    | (hookId, none) =>
      let t1 := [Effect.call (Call.DeleteHook config.GithubOwner config.GithubRepo hookId)]
      match w.DeleteHook config.GithubOwner config.GithubRepo hookId with
      | some err =>
        let resp := buildResponse evt cfn.StatusFailed none
        sendThen w t1 resp (Outcome.returned resp (some ("error in  deleting webhook: " ++ err)))
      | none =>
        let r := buildResponse evt cfn.StatusSuccess none
        sendThen w t1 r (Outcome.returned r none)

/-- The `github.Hook` that `updateHandler` and `createHandler` register. -/
def newHook (config : Config) : github.Hook :=
  { ID := none
    Config :=
      [ ("url", cfn.Value.string config.WebhookURL),
        ("content_type", cfn.Value.string "json"),
        ("insecure_ssl", cfn.Value.string "0") ]
    Events := ["push"] }

/-- The function `updateHandler`. -/
def updateHandler (w : World) (config : Config) (evt : cfn.Event) : Run :=
  let t1 := [Effect.call (Call.CreateHook config.GithubOwner config.GithubRepo (newHook config))]
  let res := w.CreateHook config.GithubOwner config.GithubRepo (newHook config)
  match res.err with
  | some err =>
    let resp := buildResponse evt cfn.StatusFailed none
    sendThen w t1 resp (Outcome.returned resp (some ("error in registering webhook: " ++ err)))
  | none =>
    match res.resp.bind fun r => r.Response with
    | none => { trace := t1, out := Outcome.panicked }
    | some httpResp =>
      if httpResp.StatusCode = 201 then
        match res.hook with
        | none => { trace := t1, out := Outcome.panicked }
        | some hook =>
          let r := buildResponse evt cfn.StatusSuccess hook.ID
          sendThen w t1 r (Outcome.returned r none)
      else if httpResp.StatusCode = 403 then
        let r := buildResponse evt cfn.StatusFailed none
        sendThen w t1 r (Outcome.returned r (some "received 403 in response to create webhook"))
      else if httpResp.StatusCode = 404 then
        let r := buildResponse evt cfn.StatusFailed none
        sendThen w t1 r (Outcome.returned r (some "received 404 in response to create webhook"))
      else if httpResp.StatusCode = 422 then
        let r := buildResponse evt cfn.StatusSuccess none
        sendThen w t1 r (Outcome.returned r none)
      else
        let r := buildResponse evt cfn.StatusFailed none
        sendThen w t1 r (Outcome.returned r
          (some ("received " ++ strconv.FormatInt httpResp.StatusCode ++ " in response to create webhook")))

/-- The function `createHandler`. -/
def createHandler (w : World) (config : Config) (evt : cfn.Event) : Run :=
  let t1 := [Effect.call (Call.CreateHook config.GithubOwner config.GithubRepo (newHook config))]
  let res := w.CreateHook config.GithubOwner config.GithubRepo (newHook config)
  match res.err with
  | some err =>
    let r := buildResponse evt cfn.StatusFailed none
    sendThen w t1 r (Outcome.returned r (some ("error in registering webhook: " ++ err)))
  | none =>
    match res.resp.bind fun r => r.Response with
    | none => { trace := t1, out := Outcome.panicked }
    | some httpResp =>
      if httpResp.StatusCode = 201 then
        match res.hook with
        | none => { trace := t1, out := Outcome.panicked }
        | some hook =>
          let r := buildResponse evt cfn.StatusSuccess hook.ID
          sendThen w t1 r (Outcome.returned r none)
      else if httpResp.StatusCode = 403 then
        let r := buildResponse evt cfn.StatusFailed none
        sendThen w t1 r (Outcome.returned r (some "received 403 in response to create webhook"))
      else if httpResp.StatusCode = 404 then
        let r := buildResponse evt cfn.StatusFailed none
        sendThen w t1 r (Outcome.returned r (some "received 404 in response to create webhook"))
      else if httpResp.StatusCode = 422 then
        let r := buildResponse evt cfn.StatusSuccess none
        sendThen w t1 r (Outcome.returned r none)
      else
        let r := buildResponse evt cfn.StatusFailed none
        sendThen w t1 r (Outcome.returned r
          (some ("received " ++ strconv.FormatInt httpResp.StatusCode ++ " in response to create webhook")))

/-- The generic function `readProperty[T]`; `assertT` is the type assertion
`d.(T)` of the instance. -/
def readProperty {T : Type} (assertT : cfn.Value → Option T) (evt : cfn.Event)
    (propertyName : String) : Except String T :=
  match evt.ResourceProperties.get propertyName with
  | none => Except.error ("could not find " ++ propertyName)
  | some d =>
    match assertT d with
    | none => Except.error ("property " ++ propertyName ++ " is not the generic type T")
    | some v => Except.ok v

/-- The three ways `readResourceProperties` ends: with the configuration, with
the name of the failing field and the error, or in a panic. -/
inductive ReadResult where
  | ok (config : Config)
  | failed (field : String) (err : String)
  | panicked

/-- The function `readGithubToken`, given the answer of the secret resolver: the
nil-able `SecretString`, or the wrapped error. -/
def readGithubToken (w : World) (secretArn : String) : Except String (Option String) :=
  match w.GetSecretValue secretArn with
  | Except.error err => Except.error ("error in reading secret " ++ secretArn ++ ": " ++ err)
  | Except.ok secretString => Except.ok secretString

/-- The function `readResourceProperties`: the effects it performed and the way
it ended.  The secret is fetched after `GithubTokenArn` was read and before
`WebhookURL` is; the nil-able secret string is dereferenced last, in the
`Config` literal. -/
def readResourceProperties (w : World) (evt : cfn.Event) : List Effect × ReadResult :=
  match readProperty cfn.Value.asString evt "GithubOwner" with
  | Except.error err => ([], ReadResult.failed "GithubOwner" err)
  | Except.ok ghOwner =>
    match readProperty cfn.Value.asString evt "GithubRepo" with
    | Except.error err => ([], ReadResult.failed "GithubRepo" err)
    | Except.ok ghRepo =>
      match readProperty cfn.Value.asString evt "GithubBranch" with
      | Except.error err => ([], ReadResult.failed "GithubBranch" err)
      | Except.ok ghBranch =>
        match readProperty cfn.Value.asString evt "GithubTokenArn" with
        | Except.error err => ([], ReadResult.failed "GithubTokenArn" err)
        | Except.ok ghTokenArn =>
          let t1 := [Effect.call (Call.GetSecretValue ghTokenArn)]
          match readGithubToken w ghTokenArn with
          | Except.error err =>
            (t1, ReadResult.failed "GithubTokenArn"
              ("error in reading secret from secretsmanager: " ++ err))
          | Except.ok ghToken =>
            match readProperty cfn.Value.asString evt "WebhookURL" with
            | Except.error err => (t1, ReadResult.failed "WebhookURL" err)
            | Except.ok webhookURL =>
              match ghToken with
              | none => (t1, ReadResult.panicked)
              | some token =>
                (t1, ReadResult.ok
                  { GithubOwner := ghOwner
                    GithubRepo := ghRepo
                    GithubBranch := ghBranch
                    GithubToken := token
                    WebhookURL := webhookURL })

/-- The function `readPropertyErrorHandler`. -/
def readPropertyErrorHandler (w : World) (evt : cfn.Event) (propertyName : String) (err : String) :
    Run :=
  let resp := buildResponse evt cfn.StatusFailed none
  sendThen w [] resp
    (Outcome.returned resp (some ("error in reading " ++ propertyName ++ ": " ++ err)))

/-- The run `r` after the effects `pre`. -/
def Run.after (pre : List Effect) (r : Run) : Run :=
  { trace := pre ++ r.trace, out := r.out }

/-- The function `handler`. -/
def handler (w : World) (evt : cfn.Event) : Run :=
  match readResourceProperties w evt with
  | (pre, ReadResult.failed field err) => Run.after pre (readPropertyErrorHandler w evt field err)
  | (pre, ReadResult.panicked) => { trace := pre, out := Outcome.panicked }
  | (pre, ReadResult.ok config) =>
    if evt.RequestType = cfn.RequestUpdate then Run.after pre (updateHandler w config evt)
    else if evt.RequestType = cfn.RequestCreate then Run.after pre (createHandler w config evt)
    else if evt.RequestType = cfn.RequestDelete then Run.after pre (deleteHandler w config evt)
    else
      let resp := buildResponse evt cfn.StatusFailed none
      sendThen w pre resp (Outcome.returned resp none)

/-- The requests to the external collaborators among the effects, in order. -/
def calls : List Effect → List Call
  | [] => []
  | Effect.call c :: rest => c :: calls rest
  | Effect.send _ :: rest => calls rest

/-- Whether the declared property `name` of the event is present and a string. -/
def isString (evt : cfn.Event) (name : String) : Bool :=
  match evt.ResourceProperties.get name with
  | some (cfn.Value.string _) => true
  | _ => false

end WebhookManager

/-! ## The pipeline trigger (`trigger-fn/main.go`) -/

namespace TriggerFn

/-- The struct `Commit`: the three lists of file paths that the push filter
reads. -/
structure Commit where
  Added : List String
  Removed : List String
  Modified : List String

/-- The inner loop of `findMatch`, over the files, for one filter. -/
def findMatchFile (filter : String) : List String → Bool
  | [] => false
  | file :: rest => if strings.HasPrefix file filter then true else findMatchFile filter rest

/-- The function `findMatch`: the outer loop runs over the filters. -/
def findMatch (files : List String) : List String → Bool
  | [] => false
  | filter :: rest => if findMatchFile filter files then true else findMatch files rest

/-- The function `checkCommits`. -/
def checkCommits : List Commit → List String → Bool
  | [], _ => false
  | commit :: rest, filters =>
    if findMatch commit.Modified filters || findMatch commit.Added filters
        || findMatch commit.Removed filters then true
    else checkCommits rest filters

end TriggerFn

/-! ## Sample inputs -/

namespace Sample

/-- An event of the given kind with the given prior physical id and declared
properties. -/
def event (requestType physicalResourceID : String) (props : cfn.Map) : cfn.Event :=
  { RequestType := requestType
    RequestID := "req-1"
    ResponseURL := "https://cloudformation.example/response"
    ResourceType := "Custom::Resource"
    PhysicalResourceID := physicalResourceID
    LogicalResourceID := "Resource"
    StackID := "stack-1"
    ResourceProperties := props
    OldResourceProperties := [] }

/-- A service configuration with every field present. -/
def serviceConfiguration (serviceId : String) : ec2.ServiceConfiguration :=
  { ServiceId := some serviceId
    ServiceName := some "com.amazonaws.vpce.svc"
    PrivateDnsNameConfiguration :=
      some { Name := some "_x", State := some "verified", Type_ := some "TXT", Value := some "v" } }

/-- An endpoint-service API in which every operation succeeds: the service
created is `vpce-svc-1`, and the principals read are `observed`. -/
def ec2World (observed : List String) : VpcEndpointConfigurator.World :=
  { DeleteVpcEndpointServiceConfigurations := fun _ => Except.ok []
    DescribeVpcEndpointServiceConfigurations := fun ids => Except.ok (ids.map serviceConfiguration)
    DescribeVpcEndpointServicePermissions := fun _ =>
      Except.ok (VpcEndpointConfigurator.observedOf observed)
    ModifyVpcEndpointServicePermissions := fun _ => none
    ModifyVpcEndpointServiceConfiguration := fun _ => none
    CreateVpcEndpointServiceConfiguration := fun _ =>
      Except.ok { ServiceConfiguration := some (serviceConfiguration "vpce-svc-1") }
    Send := fun _ => none }

/-- An endpoint-service API whose create operation fails. -/
def ec2WorldCreateFails : VpcEndpointConfigurator.World :=
  { ec2World [] with CreateVpcEndpointServiceConfiguration := fun _ => Except.error "quota exceeded" }

/-- A configuration of the endpoint-service provider with the given desired
principals. -/
def ec2Config (allowedPrincipals : List String) : VpcEndpointConfigurator.Config :=
  { NetworkLoadBalancerArns := ["arn:nlb-1"]
    AllowedPrincipals := allowedPrincipals
    AcceptanceRequired := false
    PrivateDnsName := "proxy.example" }

/-- A webhook API in which every operation succeeds: the hook created has the
given id, with status 201. -/
def hookWorld (newId : Int) : WebhookManager.World :=
  { GetSecretValue := fun _ => Except.ok (some "token")
    CreateHook := fun _ _ hook =>
      { hook := some { hook with ID := some newId }
        resp := some { Response := some { StatusCode := 201 } }
        err := none }
    DeleteHook := fun _ _ _ => none
    Send := fun _ => none }

/-- A webhook API whose create operation fails. -/
def hookWorldCreateFails : WebhookManager.World :=
  { hookWorld 0 with CreateHook := fun _ _ _ => { hook := none, resp := none, err := some "timeout" } }

/-- A configuration of the webhook provider. -/
def hookConfig : WebhookManager.Config :=
  { GithubOwner := "owner"
    GithubRepo := "repo"
    GithubBranch := "main"
    GithubToken := "token"
    WebhookURL := "https://trigger.example" }

/-- An endpoint-service API whose delete operation fails with the not-found
error of the remote system. -/
def ec2WorldDeleteNotFound : VpcEndpointConfigurator.World :=
  { ec2World [] with
    DeleteVpcEndpointServiceConfigurations := fun _ =>
      Except.error "InvalidVpcEndpointServiceId.NotFound: The VpcEndpointService Id does not exist" }

/-- A webhook API whose delete operation fails with status 404. -/
def hookWorldDeleteNotFound : WebhookManager.World :=
  { hookWorld 0 with
    DeleteHook := fun _ _ _ => some "DELETE https://api.github.com/repos/owner/repo/hooks/42: 404 Not Found []" }

/-- A webhook API whose create operation finds the hook already registered: the
client answers with status 422 and, as for every status outside 200-299, with a
non-nil error. -/
def hookWorldConflict : WebhookManager.World :=
  { hookWorld 0 with
    CreateHook := fun _ _ _ =>
      { hook := none
        resp := some { Response := some { StatusCode := 422 } }
        err := some "POST https://api.github.com/repos/owner/repo/hooks: 422 Validation Failed [Hook already exists on this repository]" } }

/-- An endpoint-service API whose batch delete returns without error but reports
one unsuccessful item. -/
def ec2WorldPartialDelete : VpcEndpointConfigurator.World :=
  { ec2World [] with
    DeleteVpcEndpointServiceConfigurations := fun ids =>
      Except.ok (ids.map fun id => { ResourceId := some id }) }

/-- Declared properties in which `NetworkLoadBalancerArns` is a list with an
element that is not a string. -/
def ec2PropsMistypedElement : cfn.Map :=
  [ ("NetworkLoadBalancerArns", cfn.Value.list [cfn.Value.string "arn:nlb-1", cfn.Value.number 5]),
    ("AllowedPrincipals", cfn.Value.list [cfn.Value.string "P1"]),
    ("AcceptanceRequired", cfn.Value.string "false"),
    ("PrivateDnsName", cfn.Value.string "proxy.example") ]

/-- Declared properties in which `AllowedPrincipals` is a list with an element
that is not a string. -/
def ec2PropsMistypedPrincipal : cfn.Map :=
  [ ("NetworkLoadBalancerArns", cfn.Value.list [cfn.Value.string "arn:nlb-1"]),
    ("AllowedPrincipals", cfn.Value.list [cfn.Value.bool true, cfn.Value.string "P1"]),
    ("AcceptanceRequired", cfn.Value.string "false"),
    ("PrivateDnsName", cfn.Value.string "proxy.example") ]

/-- Declared properties of the webhook provider without `WebhookURL`. -/
def hookPropsWithoutURL : cfn.Map :=
  [ ("GithubOwner", cfn.Value.string "owner"),
    ("GithubRepo", cfn.Value.string "repo"),
    ("GithubBranch", cfn.Value.string "main"),
    ("GithubTokenArn", cfn.Value.string "arn:secret") ]

/-- An endpoint-service API whose configuration read succeeds with an empty
list of service configurations. -/
def ec2WorldNoConfigurations : VpcEndpointConfigurator.World :=
  { ec2World [] with DescribeVpcEndpointServiceConfigurations := fun _ => Except.ok [] }

/-- Declared properties that the endpoint-service provider accepts. -/
def ec2Props : cfn.Map :=
  [ ("NetworkLoadBalancerArns", cfn.Value.list [cfn.Value.string "arn:nlb-1"]),
    ("AllowedPrincipals", cfn.Value.list [cfn.Value.string "P1"]),
    ("AcceptanceRequired", cfn.Value.string "false"),
    ("PrivateDnsName", cfn.Value.string "proxy.example") ]

/-- Declared properties that the webhook provider accepts. -/
def hookProps : cfn.Map :=
  [ ("GithubOwner", cfn.Value.string "owner"),
    ("GithubRepo", cfn.Value.string "repo"),
    ("GithubBranch", cfn.Value.string "main"),
    ("GithubTokenArn", cfn.Value.string "arn:secret"),
    ("WebhookURL", cfn.Value.string "https://trigger.example") ]

end Sample

/-! ## Lemmas on the string functions -/

namespace strings

theorem splitGo_single_cons (c d : Char) (cs cur : List Char) :
    splitGo [c] 0 (d :: cs) cur =
      if c = d then cur :: splitGo [c] 0 cs [] else splitGo [c] 0 cs (cur ++ [d]) := by
  simp [splitGo, List.isPrefixOf]

/-- Without the separator there is one segment, the whole string. -/
theorem splitGo_single_of_not_mem (c : Char) (s : List Char) (h : c ∉ s) (cur : List Char) :
    splitGo [c] 0 s cur = [cur ++ s] := by
  induction s generalizing cur with
  | nil => simp [splitGo]
  | cons d ds ih =>
    have hd : c ≠ d := fun e => h (by simp [e])
    have hds : c ∉ ds := fun e => h (by simp [e])
    rw [splitGo_single_cons, if_neg hd, ih hds]
    simp

/-- The first segment ends at the first separator. -/
theorem splitGo_single_append (c : Char) (a rest : List Char) (h : c ∉ a) (cur : List Char) :
    splitGo [c] 0 (a ++ c :: rest) cur = (cur ++ a) :: splitGo [c] 0 rest [] := by
  induction a generalizing cur with
  | nil => simp [splitGo_single_cons]
  | cons d ds ih =>
    have hd : c ≠ d := fun e => h (by simp [e])
    have hds : c ∉ ds := fun e => h (by simp [e])
    rw [List.cons_append, splitGo_single_cons, if_neg hd, ih hds]
    simp

theorem splitGo_single_ne_nil (c : Char) (s cur : List Char) : splitGo [c] 0 s cur ≠ [] := by
  induction s generalizing cur with
  | nil => simp [splitGo]
  | cons d ds ih =>
    rw [splitGo_single_cons]
    split
    · simp
    · exact ih _

/-- A string without the one-character separator splits into itself alone. -/
theorem Split_of_not_mem (c : Char) (s : String) (h : c ∉ s.data) :
    Split s (String.mk [c]) = [s] := by
  simp [Split, splitGo_single_of_not_mem c s.data h]

/-- A tag without the separator, the separator, then any text: the tag is segment
0 and the segments of the text follow. -/
theorem Split_tag_append (c : Char) (tag rest : String) (h : c ∉ tag.data) :
    Split (tag ++ String.mk [c] ++ rest) (String.mk [c]) = tag :: Split rest (String.mk [c]) := by
  simp [Split, splitGo_single_append c tag.data rest.data h]

end strings

namespace strconv

theorem digitVal_digitChar (d : Nat) (h : d < 10) : digitVal (digitChar d) = some d := by
  interval_cases d <;> decide

theorem digitChar_ne_minus (d : Nat) (h : d < 10) : digitChar d ≠ '-' := by
  interval_cases d <;> decide

theorem digitChar_ne_plus (d : Nat) (h : d < 10) : digitChar d ≠ '+' := by
  interval_cases d <;> decide

/-- The digits of `n` do not depend on the fuel, once it exceeds `n`, and are put
in front of the accumulator. -/
theorem formatBits_eq (fuel : Nat) : ∀ n, n < fuel → ∀ acc,
    formatBits fuel n acc = formatBits (n + 1) n [] ++ acc := by
  induction fuel using Nat.strong_induction_on with
  | _ fuel ih =>
    intro n hn acc
    cases fuel with
    | zero => omega
    | succ f =>
      by_cases h10 : n < 10
      · simp [formatBits, h10]
      · have hlt : n / 10 < n := Nat.div_lt_self (by omega) (by omega)
        have e1 : formatBits (f + 1) n acc
            = formatBits f (n / 10) (digitChar (n % 10) :: acc) := by
          simp [formatBits, h10]
        have e2 : formatBits (n + 1) n []
            = formatBits n (n / 10) [digitChar (n % 10)] := by
          simp [formatBits, h10]
        rw [e1, e2, ih f (by omega) (n / 10) (by omega), ih n (by omega) (n / 10) hlt]
        simp

theorem formatBits_small (n : Nat) (h : n < 10) : formatBits (n + 1) n [] = [digitChar n] := by
  simp [formatBits, h]

theorem formatBits_step (n : Nat) (h : ¬ n < 10) :
    formatBits (n + 1) n [] = formatBits (n / 10 + 1) (n / 10) [] ++ [digitChar (n % 10)] := by
  have hlt : n / 10 < n := Nat.div_lt_self (by omega) (by omega)
  have e2 : formatBits (n + 1) n [] = formatBits n (n / 10) [digitChar (n % 10)] := by
    simp [formatBits, h]
  rw [e2, formatBits_eq n (n / 10) hlt]

/-- Every character of a decimal text is a digit. -/
theorem formatBits_digits (n : Nat) :
    ∀ c ∈ formatBits (n + 1) n [], ∃ d, d < 10 ∧ c = digitChar d := by
  induction n using Nat.strong_induction_on with
  | _ n ih =>
    intro c hc
    by_cases h10 : n < 10
    · rw [formatBits_small n h10] at hc
      exact ⟨n, h10, by simpa using hc⟩
    · rw [formatBits_step n h10] at hc
      rcases List.mem_append.1 hc with h | h
      · exact ih (n / 10) (Nat.div_lt_self (by omega) (by omega)) c h
      · exact ⟨n % 10, Nat.mod_lt _ (by omega), by simpa using h⟩

theorem formatBits_ne_nil (n : Nat) : formatBits (n + 1) n [] ≠ [] := by
  by_cases h10 : n < 10
  · simp [formatBits, h10]
  · rw [formatBits_step n h10]
    simp

theorem parseUintLoop_append (a b : List Char) (m : Nat) :
    parseUintLoop (a ++ b) m =
      if (parseUintLoop a m).2 = none then parseUintLoop b (parseUintLoop a m).1
      else parseUintLoop a m := by
  induction a generalizing m with
  | nil => simp [parseUintLoop]
  | cons c cs ih =>
    simp only [List.cons_append, parseUintLoop]
    cases digitVal c with
    | none => simp
    | some d =>
      simp only []
      split
      · simp
      · split
        · simp
        · exact ih _

theorem parseUintLoop_digit (m d : Nat) (hd : d < 10) (hm : m * 10 + d ≤ maxUint64) :
    parseUintLoop [digitChar d] m = (m * 10 + d, none) := by
  have h64 : maxUint64 = 18446744073709551615 := by decide
  have h2 : two64 = 18446744073709551616 := rfl
  rw [h64] at hm
  simp only [parseUintLoop, digitVal_digitChar d hd, h64, h2]
  have e1 : m * 10 % 18446744073709551616 = m * 10 := Nat.mod_eq_of_lt (by omega)
  have e2 : (m * 10 + d) % 18446744073709551616 = m * 10 + d := Nat.mod_eq_of_lt (by omega)
  rw [e1, e2]
  rw [if_neg (by omega), if_neg (by omega)]

/-- Parsing the decimal text of a `uint64` gives the number back. -/
theorem parseUintLoop_formatBits (n : Nat) (h : n ≤ maxUint64) :
    parseUintLoop (formatBits (n + 1) n []) 0 = (n, none) := by
  induction n using Nat.strong_induction_on with
  | _ n ih =>
    by_cases h10 : n < 10
    · rw [formatBits_small n h10, parseUintLoop_digit 0 n h10 (by omega)]
      simp
    · have hlt : n / 10 < n := Nat.div_lt_self (by omega) (by omega)
      rw [formatBits_step n h10, parseUintLoop_append, ih (n / 10) hlt (by omega)]
      simp only [if_true]
      rw [parseUintLoop_digit (n / 10) (n % 10) (Nat.mod_lt _ (by omega)) (by omega)]
      congr 1
      omega

/-- Round trip of the decimal text: `ParseInt` reads back every non-negative
`int64` that `FormatInt` wrote. -/
theorem ParseInt_FormatInt (h : Int) (h0 : 0 ≤ h) (h63 : h < 9223372036854775808) :
    ParseInt (FormatInt h) = (h, none) := by
  obtain ⟨n, rfl⟩ := Int.eq_ofNat_of_zero_le h0
  have hn : n < 9223372036854775808 := by exact_mod_cast h63
  have hmax : n ≤ maxUint64 := by
    have h64 : maxUint64 = 18446744073709551615 := by decide
    omega
  have hfmt : FormatInt (n : Int) = String.mk (formatBits (n + 1) n []) := by
    simp [FormatInt, FormatUint]
  rw [hfmt]
  have hp := parseUintLoop_formatBits n hmax
  have hd := formatBits_digits n
  have hne := formatBits_ne_nil n
  cases hl : formatBits (n + 1) n [] with
  | nil => exact absurd hl hne
  | cons c cs =>
    rw [hl] at hp hd
    obtain ⟨d, hd10, hcd⟩ := hd c (by simp)
    have hminus : c ≠ '-' := hcd ▸ digitChar_ne_minus d hd10
    have hplus : c ≠ '+' := hcd ▸ digitChar_ne_plus d hd10
    simp [ParseInt, ParseUint, hminus, hplus, hp]
    omega

end strconv

/-! ## Identity tokens -/

namespace VpcEndpointConfigurator

theorem split_minted_service (x : String) (hx : ':' ∉ x.data) :
    strings.Split ("VpcEndpointService" ++ PhyIdSeparator ++ x) PhyIdSeparator
      = ["VpcEndpointService", x] := by
  have h := strings.Split_tag_append ':' "VpcEndpointService" x (by decide)
  have h2 := strings.Split_of_not_mem ':' x hx
  rw [h2] at h
  exact h

/-- C1 (amended): the token minted by `buildResponse` for an event without a
prior physical id and a service id `x` that contains no `":"` is
`"VpcEndpointService:" ++ x`; on the next event that carries this token, the
split on `":"` has exactly the two segments tag and `x`, the first remote call of
`deleteHandler` is the delete of exactly `[x]`, and the first remote call of
`updateHandler` is the read of exactly `[x]`. -/
theorem C1_service_token_round_trip (w : World) (config : Config) (evt next : cfn.Event)
    (status : cfn.StatusType) (reason : String) (x : String) (data : cfn.Map)
    (hprior : evt.PhysicalResourceID = "") (hx : ':' ∉ x.data)
    (hnext : next.PhysicalResourceID
      = (buildResponse evt status reason (some x) data).PhysicalResourceID) :
    next.PhysicalResourceID = "VpcEndpointService" ++ ":" ++ x ∧
    strings.Split next.PhysicalResourceID PhyIdSeparator = ["VpcEndpointService", x] ∧
    (deleteHandler w config next).trace.head?
      = some (Effect.call (Call.DeleteVpcEndpointServiceConfigurations [x])) ∧
    (updateHandler w config next).trace.head?
      = some (Effect.call (Call.DescribeVpcEndpointServiceConfigurations [x])) := by
  have htok : next.PhysicalResourceID = "VpcEndpointService" ++ PhyIdSeparator ++ x := by
    rw [hnext]; simp [buildResponse, hprior]
  have hsplit := split_minted_service x hx
  rw [← htok] at hsplit
  refine ⟨htok, hsplit, ?_, ?_⟩
  · simp only [deleteHandler, hsplit]
    simp only [List.length_cons, List.length_nil]
    rw [if_neg (by decide)]
    simp only [List.getD_cons_succ, List.getD_cons_zero]
    split <;> [skip; split] <;> simp [sendThen]
  · simp only [updateHandler, hsplit]
    simp only [List.length_cons, List.length_nil]
    rw [if_neg (by decide)]
    simp only [List.getD_cons_succ, List.getD_cons_zero]
    repeat' split
    all_goals simp [sendThen]

end VpcEndpointConfigurator

namespace VpcEndpointConfigurator

/-- C1, witness: service id `vpce-svc-1`. -/
theorem C1_service_token_round_trip_witness :
    (Sample.event "Create" "" []).PhysicalResourceID = "" ∧
    ':' ∉ "vpce-svc-1".data ∧
    strings.Split (Sample.event "Delete" "VpcEndpointService:vpce-svc-1" []).PhysicalResourceID
      PhyIdSeparator = ["VpcEndpointService", "vpce-svc-1"] ∧
    (deleteHandler (Sample.ec2World []) (Sample.ec2Config [])
        (Sample.event "Delete" "VpcEndpointService:vpce-svc-1" [])).trace.head?
      = some (Effect.call (Call.DeleteVpcEndpointServiceConfigurations ["vpce-svc-1"])) :=
  have h := C1_service_token_round_trip (Sample.ec2World []) (Sample.ec2Config [])
    (Sample.event "Create" "" []) (Sample.event "Delete" "VpcEndpointService:vpce-svc-1" [])
    cfn.StatusSuccess "created successfully" "vpce-svc-1" [] rfl (by decide) (by decide)
  ⟨rfl, by decide, h.2.1, h.2.2.1⟩

/-- C1, counterexample: for the service id `a:b` the minted token is
`VpcEndpointService:a:b`, its segment 1 is `a`, not `a:b`, and `deleteHandler`
asks the remote system to delete `a`. -/
theorem C1_counterexample :
    (buildResponse (Sample.event "Create" "" []) cfn.StatusSuccess "created successfully"
        (some "a:b") []).PhysicalResourceID = "VpcEndpointService:a:b" ∧
    (strings.Split "VpcEndpointService:a:b" PhyIdSeparator).getD 1 "" = "a" ∧
    (strings.Split "VpcEndpointService:a:b" PhyIdSeparator).getD 1 "" ≠ "a:b" ∧
    (deleteHandler (Sample.ec2World []) (Sample.ec2Config [])
        (Sample.event "Delete" "VpcEndpointService:a:b" [])).trace.head?
      = some (Effect.call (Call.DeleteVpcEndpointServiceConfigurations ["a"])) :=
  ⟨by decide, by decide, by decide, rfl⟩

end VpcEndpointConfigurator

namespace WebhookManager

theorem split_minted_hook (h : Int) (h0 : 0 ≤ h) :
    strings.Split ("githubwebhookmanager" ++ PhyIdSeparator ++ strconv.FormatInt h) PhyIdSeparator
      = ["githubwebhookmanager", strconv.FormatInt h] := by
  have hx : '-' ∉ (strconv.FormatInt h).data := by
    obtain ⟨n, rfl⟩ := Int.eq_ofNat_of_zero_le h0
    have hfmt : strconv.FormatInt (n : Int) = String.mk (strconv.formatBits (n + 1) n []) := by
      simp [strconv.FormatInt, strconv.FormatUint]
    rw [hfmt]
    intro hmem
    obtain ⟨d, hd, hc⟩ := strconv.formatBits_digits n '-' hmem
    exact strconv.digitChar_ne_minus d hd hc.symm
  have h1 := strings.Split_tag_append '-' "githubwebhookmanager" (strconv.FormatInt h) (by decide)
  have h2 := strings.Split_of_not_mem '-' (strconv.FormatInt h) hx
  rw [h2] at h1
  exact h1

/-- C2 (amended): the token minted by `buildResponse` for an event without a
prior physical id and a hook id `h` with `0 ≤ h < 2^63` is
`"githubwebhookmanager-"` followed by the decimal text of `h`; on the next event
that carries this token, the split on `"-"` has exactly the two segments tag and
decimal text, `ParseInt` reads segment 1 back as `h` without error, and the
first remote call of `deleteHandler` is the delete of hook `h`. -/
theorem C2_hook_token_round_trip (w : World) (config : Config) (evt next : cfn.Event)
    (status : cfn.StatusType) (h : Int)
    (hprior : evt.PhysicalResourceID = "") (h0 : 0 ≤ h) (h63 : h < 9223372036854775808)
    (hnext : next.PhysicalResourceID = (buildResponse evt status (some h)).PhysicalResourceID) :
    next.PhysicalResourceID = "githubwebhookmanager" ++ "-" ++ strconv.FormatInt h ∧
    strings.Split next.PhysicalResourceID PhyIdSeparator
      = ["githubwebhookmanager", strconv.FormatInt h] ∧
    strconv.ParseInt ((strings.Split next.PhysicalResourceID PhyIdSeparator).getD 1 "")
      = (h, none) ∧
    (deleteHandler w config next).trace.head?
      = some (Effect.call (Call.DeleteHook config.GithubOwner config.GithubRepo h)) := by
  have htok : next.PhysicalResourceID
      = "githubwebhookmanager" ++ PhyIdSeparator ++ strconv.FormatInt h := by
    rw [hnext]; simp [buildResponse, hprior]
  have hsplit := split_minted_hook h h0
  rw [← htok] at hsplit
  have hparse := strconv.ParseInt_FormatInt h h0 h63
  refine ⟨htok, hsplit, ?_, ?_⟩
  · rw [hsplit]; simpa using hparse
  · simp only [deleteHandler, hsplit]
    simp only [List.length_cons, List.length_nil]
    rw [if_neg (by decide)]
    simp only [List.getD_cons_succ, List.getD_cons_zero, hparse]
    split <;> simp [sendThen]

/-- C2, witness: hook id 42. -/
theorem C2_hook_token_round_trip_witness :
    (Sample.event "Create" "" []).PhysicalResourceID = "" ∧
    (0 : Int) ≤ 42 ∧ (42 : Int) < 9223372036854775808 ∧
    (Sample.event "Delete" "githubwebhookmanager-42" []).PhysicalResourceID
      = "githubwebhookmanager" ++ "-" ++ strconv.FormatInt 42 ∧
    (deleteHandler (Sample.hookWorld 0) Sample.hookConfig
        (Sample.event "Delete" "githubwebhookmanager-42" [])).trace.head?
      = some (Effect.call (Call.DeleteHook "owner" "repo" 42)) :=
  have h := C2_hook_token_round_trip (Sample.hookWorld 0) Sample.hookConfig
    (Sample.event "Create" "" []) (Sample.event "Delete" "githubwebhookmanager-42" [])
    cfn.StatusSuccess 42 rfl (by decide) (by decide) (by decide)
  ⟨rfl, by decide, by decide, h.1, h.2.2.2⟩

/-- C2, counterexample: for the hook id `-1` the minted token is
`githubwebhookmanager--1`, its segment 1 is the empty string, which `ParseInt`
rejects, and `deleteHandler` delivers its envelope without any remote call: the
id `-1` is not read back. -/
theorem C2_counterexample :
    (buildResponse (Sample.event "Create" "" []) cfn.StatusSuccess (some (-1))).PhysicalResourceID
      = "githubwebhookmanager--1" ∧
    (strings.Split "githubwebhookmanager--1" PhyIdSeparator).getD 1 "" = "" ∧
    strconv.ParseInt ((strings.Split "githubwebhookmanager--1" PhyIdSeparator).getD 1 "")
      = (0, some strconv.NumError.ErrSyntax) ∧
    (deleteHandler (Sample.hookWorld 0) Sample.hookConfig
        (Sample.event "Delete" "githubwebhookmanager--1" [])).trace
      = [Effect.send (buildResponse (Sample.event "Delete" "githubwebhookmanager--1" [])
          cfn.StatusSuccess none)] :=
  ⟨by decide, by decide, by decide, rfl⟩

end WebhookManager

/-! ## Absent tokens and preserved tokens -/

/-- C3: when the prior physical id of an event holds no `":"` (for the
endpoint-service provider) or no `"-"` (for the webhook provider), the
endpoint-service `deleteHandler` and `updateHandler` and the webhook
`deleteHandler` perform a single effect, the delivery of an envelope of status
Success: no request goes to the remote resource API.  The envelope is returned
with a nil error whenever its delivery succeeds. -/
theorem C3_absent_token_short_circuits
    (wv : VpcEndpointConfigurator.World) (cv : VpcEndpointConfigurator.Config)
    (wh : WebhookManager.World) (ch : WebhookManager.Config) (evtV evtH : cfn.Event)
    (hv : ':' ∉ evtV.PhysicalResourceID.data) (hh : '-' ∉ evtH.PhysicalResourceID.data) :
    ((VpcEndpointConfigurator.deleteHandler wv cv evtV).trace
        = [VpcEndpointConfigurator.Effect.send (VpcEndpointConfigurator.buildResponse evtV
            cfn.StatusSuccess
            ("could not reach service id from physical resource id: " ++ evtV.PhysicalResourceID)
            none [])] ∧
      (wv.Send (VpcEndpointConfigurator.buildResponse evtV cfn.StatusSuccess
            ("could not reach service id from physical resource id: " ++ evtV.PhysicalResourceID)
            none []) = none →
        (VpcEndpointConfigurator.deleteHandler wv cv evtV).out
          = Outcome.returned (VpcEndpointConfigurator.buildResponse evtV cfn.StatusSuccess
              ("could not reach service id from physical resource id: " ++ evtV.PhysicalResourceID)
              none []) none)) ∧
    ((VpcEndpointConfigurator.updateHandler wv cv evtV).trace
        = [VpcEndpointConfigurator.Effect.send (VpcEndpointConfigurator.buildResponse evtV
            cfn.StatusSuccess
            ("could not reach service id from physical resource id: " ++ evtV.PhysicalResourceID)
            none [])] ∧
      (wv.Send (VpcEndpointConfigurator.buildResponse evtV cfn.StatusSuccess
            ("could not reach service id from physical resource id: " ++ evtV.PhysicalResourceID)
            none []) = none →
        (VpcEndpointConfigurator.updateHandler wv cv evtV).out
          = Outcome.returned (VpcEndpointConfigurator.buildResponse evtV cfn.StatusSuccess
              ("could not reach service id from physical resource id: " ++ evtV.PhysicalResourceID)
              none []) none)) ∧
    ((WebhookManager.deleteHandler wh ch evtH).trace
        = [WebhookManager.Effect.send (WebhookManager.buildResponse evtH cfn.StatusSuccess none)] ∧
      (wh.Send (WebhookManager.buildResponse evtH cfn.StatusSuccess none) = none →
        (WebhookManager.deleteHandler wh ch evtH).out
          = Outcome.returned (WebhookManager.buildResponse evtH cfn.StatusSuccess none) none)) ∧
    (VpcEndpointConfigurator.buildResponse evtV cfn.StatusSuccess
        ("could not reach service id from physical resource id: " ++ evtV.PhysicalResourceID)
        none []).Status = cfn.StatusSuccess ∧
    (WebhookManager.buildResponse evtH cfn.StatusSuccess none).Status = cfn.StatusSuccess := by
  have sv : strings.Split evtV.PhysicalResourceID VpcEndpointConfigurator.PhyIdSeparator
      = [evtV.PhysicalResourceID] := strings.Split_of_not_mem ':' _ hv
  have sh : strings.Split evtH.PhysicalResourceID WebhookManager.PhyIdSeparator
      = [evtH.PhysicalResourceID] := strings.Split_of_not_mem '-' _ hh
  refine ⟨⟨?_, ?_⟩, ⟨?_, ?_⟩, ⟨?_, ?_⟩, ?_, ?_⟩
  · simp [VpcEndpointConfigurator.deleteHandler, sv, VpcEndpointConfigurator.sendThen]
  · intro hs
    simp [VpcEndpointConfigurator.deleteHandler, sv, VpcEndpointConfigurator.sendThen, hs]
  · simp [VpcEndpointConfigurator.updateHandler, sv, VpcEndpointConfigurator.sendThen]
  · intro hs
    simp [VpcEndpointConfigurator.updateHandler, sv, VpcEndpointConfigurator.sendThen, hs]
  · simp [WebhookManager.deleteHandler, sh, WebhookManager.sendThen]
  · intro hs
    simp [WebhookManager.deleteHandler, sh, WebhookManager.sendThen, hs]
  · unfold VpcEndpointConfigurator.buildResponse
    split <;> [skip; split] <;> rfl
  · unfold WebhookManager.buildResponse
    split <;> rfl

/-- C3, witness: the empty prior physical id. -/
theorem C3_absent_token_short_circuits_witness :
    ':' ∉ (Sample.event "Delete" "" []).PhysicalResourceID.data ∧
    '-' ∉ (Sample.event "Delete" "" []).PhysicalResourceID.data ∧
    (VpcEndpointConfigurator.deleteHandler (Sample.ec2World []) (Sample.ec2Config [])
        (Sample.event "Delete" "" [])).trace
      = [VpcEndpointConfigurator.Effect.send (VpcEndpointConfigurator.buildResponse
          (Sample.event "Delete" "" []) cfn.StatusSuccess
          ("could not reach service id from physical resource id: "
            ++ (Sample.event "Delete" "" []).PhysicalResourceID) none [])] ∧
    (WebhookManager.deleteHandler (Sample.hookWorld 0) Sample.hookConfig
        (Sample.event "Delete" "" [])).trace
      = [WebhookManager.Effect.send (WebhookManager.buildResponse (Sample.event "Delete" "" [])
          cfn.StatusSuccess none)] :=
  have h := C3_absent_token_short_circuits (Sample.ec2World []) (Sample.ec2Config [])
    (Sample.hookWorld 0) Sample.hookConfig (Sample.event "Delete" "" [])
    (Sample.event "Delete" "" []) (by decide) (by decide)
  ⟨by decide, by decide, h.1.1, h.2.2.1.1⟩

/-- C8: when the event carries a non-empty `PhysicalResourceID`, the envelope
that `buildResponse` builds has the same `PhysicalResourceID`, in the
endpoint-service provider and in the webhook provider, whatever the status, the
reason, the external id (nil or not) and the data. -/
theorem C8_prior_token_preserved (evt : cfn.Event) (status : cfn.StatusType) (reason : String)
    (serviceId : Option String) (data : cfn.Map) (hookID : Option Int)
    (h : evt.PhysicalResourceID ≠ "") :
    (VpcEndpointConfigurator.buildResponse evt status reason serviceId data).PhysicalResourceID
      = evt.PhysicalResourceID ∧
    (WebhookManager.buildResponse evt status hookID).PhysicalResourceID
      = evt.PhysicalResourceID := by
  simp [VpcEndpointConfigurator.buildResponse, WebhookManager.buildResponse, h]

/-- C8, witness: the prior token `VpcEndpointService:vpce-svc-1` against a new
service id and a new hook id. -/
theorem C8_prior_token_preserved_witness :
    (Sample.event "Update" "VpcEndpointService:vpce-svc-1" []).PhysicalResourceID ≠ "" ∧
    (VpcEndpointConfigurator.buildResponse (Sample.event "Update" "VpcEndpointService:vpce-svc-1" [])
        cfn.StatusSuccess "updated successfully" (some "vpce-svc-2") []).PhysicalResourceID
      = "VpcEndpointService:vpce-svc-1" ∧
    (WebhookManager.buildResponse (Sample.event "Update" "VpcEndpointService:vpce-svc-1" [])
        cfn.StatusFailed (some 7)).PhysicalResourceID
      = "VpcEndpointService:vpce-svc-1" :=
  have h := C8_prior_token_preserved (Sample.event "Update" "VpcEndpointService:vpce-svc-1" [])
  ⟨by decide, (h cfn.StatusSuccess "updated successfully" (some "vpce-svc-2") [] none
      (by decide)).1,
    (h cfn.StatusFailed "" none [] (some 7) (by decide)).2⟩

/-! ## Tokens after a create call -/

namespace WebhookManager

/-- Every envelope of the webhook `updateHandler` keeps the prior physical id of
the event when there is one, also after status 201: the id of the new hook does
not reach the envelope. -/
theorem updateHandler_keeps_prior (w : World) (config : Config) (evt : cfn.Event)
    (h : evt.PhysicalResourceID ≠ "") (resp : cfn.Response)
    (hmem : Effect.send resp ∈ (updateHandler w config evt).trace) :
    resp.PhysicalResourceID = evt.PhysicalResourceID := by
  have hb : ∀ status hookID, (buildResponse evt status hookID).PhysicalResourceID
      = evt.PhysicalResourceID := fun status hookID => by simp [buildResponse, h]
  unfold updateHandler at hmem
  simp only [sendThen] at hmem
  repeat' split at hmem
  all_goals simp at hmem
  all_goals (subst hmem; exact hb _ _)

/-- C9, the code at the failing input: an Update event with the prior token
`githubwebhookmanager-1`, and a create-hook call that succeeds with status 201
and the new hook id 2.  `updateHandler` registers the new hook, then delivers and
returns a Success envelope whose physical id is still `githubwebhookmanager-1`,
not `githubwebhookmanager-2`. -/
theorem C9_update_keeps_stale_token :
    (updateHandler (Sample.hookWorld 2) Sample.hookConfig
        (Sample.event "Update" "githubwebhookmanager-1" [])).trace
      = [Effect.call (Call.CreateHook "owner" "repo" (newHook Sample.hookConfig)),
         Effect.send (buildResponse (Sample.event "Update" "githubwebhookmanager-1" [])
           cfn.StatusSuccess (some 2))] ∧
    (updateHandler (Sample.hookWorld 2) Sample.hookConfig
        (Sample.event "Update" "githubwebhookmanager-1" [])).out
      = Outcome.returned (buildResponse (Sample.event "Update" "githubwebhookmanager-1" [])
          cfn.StatusSuccess (some 2)) none ∧
    (buildResponse (Sample.event "Update" "githubwebhookmanager-1" [])
        cfn.StatusSuccess (some 2)).Status = cfn.StatusSuccess ∧
    (buildResponse (Sample.event "Update" "githubwebhookmanager-1" [])
        cfn.StatusSuccess (some 2)).PhysicalResourceID = "githubwebhookmanager-1" ∧
    (buildResponse (Sample.event "Update" "githubwebhookmanager-1" [])
        cfn.StatusSuccess (some 2)).PhysicalResourceID
      ≠ "githubwebhookmanager" ++ "-" ++ strconv.FormatInt 2 :=
  ⟨rfl, rfl, by decide, by decide, by decide⟩

end WebhookManager

/-- C10: for a Create event without a prior physical id whose remote create call
fails with an error, `createHandler` of the endpoint-service provider and of the
webhook provider performs the create call and then delivers an envelope of
status Failed whose physical id is the bare constant (`VpcEndpointService`,
`githubwebhookmanager`); the envelope is returned, with a non-nil error, whenever
its delivery succeeds.  The constant splits into a single segment, and the
`deleteHandler` of the same provider, given an event with this physical id,
delivers a Success envelope and makes no remote call. -/
theorem C10_failed_create_leaves_token_absent
    (wv : VpcEndpointConfigurator.World) (cv : VpcEndpointConfigurator.Config)
    (wh : WebhookManager.World) (ch : WebhookManager.Config)
    (evt nextV nextH : cfn.Event) (ev eh : String)
    (hprior : evt.PhysicalResourceID = "")
    (hfailV : wv.CreateVpcEndpointServiceConfiguration
        { AcceptanceRequired := cv.AcceptanceRequired
          NetworkLoadBalancerArns := cv.NetworkLoadBalancerArns
          PrivateDnsName := cv.PrivateDnsName } = Except.error ev)
    (hfailH : (wh.CreateHook ch.GithubOwner ch.GithubRepo (WebhookManager.newHook ch)).err = some eh)
    (hnextV : nextV.PhysicalResourceID = "VpcEndpointService")
    (hnextH : nextH.PhysicalResourceID = "githubwebhookmanager") :
    ((VpcEndpointConfigurator.createHandler wv cv evt).trace
        = [VpcEndpointConfigurator.Effect.call
            (VpcEndpointConfigurator.Call.CreateVpcEndpointServiceConfiguration
              { AcceptanceRequired := cv.AcceptanceRequired
                NetworkLoadBalancerArns := cv.NetworkLoadBalancerArns
                PrivateDnsName := cv.PrivateDnsName }),
           VpcEndpointConfigurator.Effect.send (VpcEndpointConfigurator.buildResponse evt
             cfn.StatusFailed ("error in creating vpc endpoint: " ++ ev) none [])] ∧
      (VpcEndpointConfigurator.buildResponse evt cfn.StatusFailed
          ("error in creating vpc endpoint: " ++ ev) none []).Status = cfn.StatusFailed ∧
      (VpcEndpointConfigurator.buildResponse evt cfn.StatusFailed
          ("error in creating vpc endpoint: " ++ ev) none []).PhysicalResourceID
        = "VpcEndpointService" ∧
      (wv.Send (VpcEndpointConfigurator.buildResponse evt cfn.StatusFailed
          ("error in creating vpc endpoint: " ++ ev) none []) = none →
        (VpcEndpointConfigurator.createHandler wv cv evt).out
          = Outcome.returned (VpcEndpointConfigurator.buildResponse evt cfn.StatusFailed
              ("error in creating vpc endpoint: " ++ ev) none [])
              (some ("error in creating vpc endpoint: " ++ ev))) ∧
      strings.Split "VpcEndpointService" VpcEndpointConfigurator.PhyIdSeparator
        = ["VpcEndpointService"] ∧
      (VpcEndpointConfigurator.deleteHandler wv cv nextV).trace
        = [VpcEndpointConfigurator.Effect.send (VpcEndpointConfigurator.buildResponse nextV
            cfn.StatusSuccess
            ("could not reach service id from physical resource id: " ++ nextV.PhysicalResourceID)
            none [])]) ∧
    ((WebhookManager.createHandler wh ch evt).trace
        = [WebhookManager.Effect.call
            (WebhookManager.Call.CreateHook ch.GithubOwner ch.GithubRepo (WebhookManager.newHook ch)),
           WebhookManager.Effect.send (WebhookManager.buildResponse evt cfn.StatusFailed none)] ∧
      (WebhookManager.buildResponse evt cfn.StatusFailed none).Status = cfn.StatusFailed ∧
      (WebhookManager.buildResponse evt cfn.StatusFailed none).PhysicalResourceID
        = "githubwebhookmanager" ∧
      (wh.Send (WebhookManager.buildResponse evt cfn.StatusFailed none) = none →
        (WebhookManager.createHandler wh ch evt).out
          = Outcome.returned (WebhookManager.buildResponse evt cfn.StatusFailed none)
              (some ("error in registering webhook: " ++ eh))) ∧
      strings.Split "githubwebhookmanager" WebhookManager.PhyIdSeparator
        = ["githubwebhookmanager"] ∧
      (WebhookManager.deleteHandler wh ch nextH).trace
        = [WebhookManager.Effect.send
            (WebhookManager.buildResponse nextH cfn.StatusSuccess none)]) := by
  have sv : strings.Split nextV.PhysicalResourceID VpcEndpointConfigurator.PhyIdSeparator
      = ["VpcEndpointService"] := by rw [hnextV]; decide
  have sh : strings.Split nextH.PhysicalResourceID WebhookManager.PhyIdSeparator
      = ["githubwebhookmanager"] := by rw [hnextH]; decide
  refine ⟨⟨?_, ?_, ?_, ?_, by decide, ?_⟩, ⟨?_, ?_, ?_, ?_, by decide, ?_⟩⟩
  · simp [VpcEndpointConfigurator.createHandler, hfailV, VpcEndpointConfigurator.sendThen]
  · simp [VpcEndpointConfigurator.buildResponse, hprior]
  · simp [VpcEndpointConfigurator.buildResponse, hprior]
  · intro hs
    simp [VpcEndpointConfigurator.createHandler, hfailV, VpcEndpointConfigurator.sendThen, hs]
  · simp [VpcEndpointConfigurator.deleteHandler, sv, VpcEndpointConfigurator.sendThen]
  · simp [WebhookManager.createHandler, hfailH, WebhookManager.sendThen]
  · simp [WebhookManager.buildResponse, hprior]
  · simp [WebhookManager.buildResponse, hprior]
  · intro hs
    simp [WebhookManager.createHandler, hfailH, WebhookManager.sendThen, hs]
  · simp [WebhookManager.deleteHandler, sh, WebhookManager.sendThen]

/-- C10, witness: both create calls fail on a first Create. -/
theorem C10_failed_create_leaves_token_absent_witness :
    (Sample.event "Create" "" []).PhysicalResourceID = "" ∧
    (VpcEndpointConfigurator.createHandler Sample.ec2WorldCreateFails (Sample.ec2Config ["P1"])
        (Sample.event "Create" "" [])).out
      = Outcome.returned (VpcEndpointConfigurator.buildResponse (Sample.event "Create" "" [])
          cfn.StatusFailed ("error in creating vpc endpoint: " ++ "quota exceeded") none [])
          (some ("error in creating vpc endpoint: " ++ "quota exceeded")) ∧
    (WebhookManager.createHandler Sample.hookWorldCreateFails Sample.hookConfig
        (Sample.event "Create" "" [])).out
      = Outcome.returned (WebhookManager.buildResponse (Sample.event "Create" "" [])
          cfn.StatusFailed none) (some ("error in registering webhook: " ++ "timeout")) :=
  have h := C10_failed_create_leaves_token_absent Sample.ec2WorldCreateFails
    (Sample.ec2Config ["P1"]) Sample.hookWorldCreateFails Sample.hookConfig
    (Sample.event "Create" "" []) (Sample.event "Delete" "VpcEndpointService" [])
    (Sample.event "Delete" "githubwebhookmanager" []) "quota exceeded" "timeout"
    rfl rfl rfl rfl rfl
  ⟨rfl, h.1.2.2.2.1 rfl, h.2.2.2.2.1 rfl⟩

/-! ## Set reconciliation -/

namespace VpcEndpointConfigurator

theorem StringSet.mem_insert (m : StringSet) (k x : String) :
    x ∈ StringSet.insert m k ↔ x ∈ m ∨ x = k := by
  unfold StringSet.insert
  split
  · constructor
    · exact Or.inl
    · rintro (h | h)
      · exact h
      · subst h; assumption
  · simp

theorem StringSet.mem_delete (m : StringSet) (k x : String) :
    x ∈ StringSet.delete m k ↔ x ∈ m ∧ x ≠ k := by
  simp [StringSet.delete]

theorem StringSet.mem_foldl_insert (l : List String) (acc : StringSet) (x : String) :
    x ∈ l.foldl StringSet.insert acc ↔ x ∈ acc ∨ x ∈ l := by
  induction l generalizing acc with
  | nil => simp
  | cons k ks ih =>
    rw [List.foldl_cons, ih, StringSet.mem_insert]
    simp only [List.mem_cons]
    tauto

/-- The loop over observed principals that are listed once each: it ends
without panic, `addPrincipals` loses exactly the observed principals, and
`removePrincipals` gains exactly the observed principals that were not keys of
`addPrincipals`. -/
theorem reconcileLoop_of_nodup (ps : List String) (hnd : ps.Nodup) :
    ∀ add rem : StringSet, ∃ a r, reconcileLoop (observedOf ps) add rem = some (a, r) ∧
      (∀ x, x ∈ a ↔ x ∈ add ∧ x ∉ ps) ∧
      (∀ x, x ∈ r ↔ x ∈ rem ∨ (x ∈ ps ∧ x ∉ add)) := by
  induction ps with
  | nil =>
    intro add rem
    exact ⟨add, rem, by simp [observedOf, reconcileLoop], by simp, by simp⟩
  | cons p ps ih =>
    intro add rem
    have hp : p ∉ ps := (List.nodup_cons.1 hnd).1
    have ih := ih (List.nodup_cons.1 hnd).2
    by_cases hmem : p ∈ add
    · obtain ⟨a, r, he, ha, hr⟩ := ih (StringSet.delete add p) rem
      refine ⟨a, r, ?_, ?_, ?_⟩
      · simp only [observedOf, List.map_cons, reconcileLoop] at he ⊢
        simp only [hmem, not_true_eq_false, if_false]
        exact he
      · intro x
        rw [ha, StringSet.mem_delete]
        simp only [List.mem_cons]
        tauto
      · intro x
        rw [hr, StringSet.mem_delete]
        simp only [List.mem_cons]
        constructor
        · rintro (h | ⟨h1, h2⟩)
          · exact Or.inl h
          · by_cases hx : x = p
            · subst hx; exact absurd h1 hp
            · exact Or.inr ⟨Or.inr h1, fun h => h2 ⟨h, hx⟩⟩
        · rintro (h | ⟨h1 | h1, h2⟩)
          · exact Or.inl h
          · subst h1; exact absurd hmem h2
          · exact Or.inr ⟨h1, fun h => h2 h.1⟩
    · obtain ⟨a, r, he, ha, hr⟩ := ih add (StringSet.insert rem p)
      refine ⟨a, r, ?_, ?_, ?_⟩
      · simp only [observedOf, List.map_cons, reconcileLoop] at he ⊢
        simp only [hmem, not_false_eq_true, if_true]
        exact he
      · intro x
        rw [ha]
        simp only [List.mem_cons]
        constructor
        · rintro ⟨h1, h2⟩
          exact ⟨h1, fun h => h.elim (fun e => hmem (e ▸ h1)) h2⟩
        · rintro ⟨h1, h2⟩
          exact ⟨h1, fun h => h2 (Or.inr h)⟩
      · intro x
        rw [hr, StringSet.mem_insert]
        simp only [List.mem_cons]
        constructor
        · rintro ((h | h) | ⟨h1, h2⟩)
          · exact Or.inl h
          · subst h; exact Or.inr ⟨Or.inl rfl, hmem⟩
          · exact Or.inr ⟨Or.inr h1, h2⟩
        · rintro (h | ⟨h1 | h1, h2⟩)
          · exact Or.inl (Or.inl h)
          · exact Or.inl (Or.inr h1)
          · exact Or.inr ⟨h1, h2⟩

/-- When the observed principals are listed once each, the delta is the pair of
set differences: the add batch holds the desired principals that are not
observed, the remove batch the observed principals that are not desired. -/
theorem principalDelta_of_nodup (desired ps : List String) (hnd : ps.Nodup) :
    ∃ toAdd toRemove, principalDelta desired (observedOf ps) = some (toAdd, toRemove) ∧
      (∀ x, x ∈ toAdd ↔ x ∈ desired ∧ x ∉ ps) ∧
      (∀ x, x ∈ toRemove ↔ x ∈ ps ∧ x ∉ desired) := by
  obtain ⟨a, r, he, ha, hr⟩ :=
    reconcileLoop_of_nodup ps hnd (desired.foldl StringSet.insert []) []
  refine ⟨a, r, he, ?_, ?_⟩
  · intro x
    rw [ha, StringSet.mem_foldl_insert]
    simp
  · intro x
    rw [hr, StringSet.mem_foldl_insert]
    simp

/-- The loop over any observed principals, repeated or not: it ends without
panic, `addPrincipals` loses exactly the observed principals, and
`removePrincipals` gains every observed principal that was not a key of
`addPrincipals`, and observed principals only. -/
theorem reconcileLoop_bounds (ps : List String) :
    ∀ add rem : StringSet, ∃ a r, reconcileLoop (observedOf ps) add rem = some (a, r) ∧
      (∀ x, x ∈ a ↔ x ∈ add ∧ x ∉ ps) ∧
      (∀ x, x ∈ rem ∨ (x ∈ ps ∧ x ∉ add) → x ∈ r) ∧
      (∀ x, x ∈ r → x ∈ rem ∨ x ∈ ps) := by
  induction ps with
  | nil =>
    intro add rem
    exact ⟨add, rem, by simp [observedOf, reconcileLoop], by simp, by simp, by simp⟩
  | cons p ps ih =>
    intro add rem
    by_cases hmem : p ∈ add
    · obtain ⟨a, r, he, ha, hsup, hsub⟩ := ih (StringSet.delete add p) rem
      refine ⟨a, r, ?_, ?_, ?_, ?_⟩
      · simp only [observedOf, List.map_cons, reconcileLoop] at he ⊢
        simp only [hmem, not_true_eq_false, if_false]
        exact he
      · intro x
        rw [ha, StringSet.mem_delete]
        simp only [List.mem_cons]
        tauto
      · intro x hx
        apply hsup
        rcases hx with h | ⟨h1, h2⟩
        · exact Or.inl h
        · rcases List.mem_cons.1 h1 with e | h3
          · subst e; exact absurd hmem h2
          · exact Or.inr ⟨h3, fun h => h2 ((StringSet.mem_delete _ _ _).1 h).1⟩
      · intro x hx
        rcases hsub x hx with h | h
        · exact Or.inl h
        · exact Or.inr (List.mem_cons_of_mem _ h)
    · obtain ⟨a, r, he, ha, hsup, hsub⟩ := ih add (StringSet.insert rem p)
      refine ⟨a, r, ?_, ?_, ?_, ?_⟩
      · simp only [observedOf, List.map_cons, reconcileLoop] at he ⊢
        simp only [hmem, not_false_eq_true, if_true]
        exact he
      · intro x
        rw [ha]
        simp only [List.mem_cons]
        constructor
        · rintro ⟨h1, h2⟩
          exact ⟨h1, fun h => h.elim (fun e => hmem (e ▸ h1)) h2⟩
        · rintro ⟨h1, h2⟩
          exact ⟨h1, fun h => h2 (Or.inr h)⟩
      · intro x hx
        apply hsup
        rcases hx with h | ⟨h1, h2⟩
        · exact Or.inl ((StringSet.mem_insert _ _ _).2 (Or.inl h))
        · rcases List.mem_cons.1 h1 with e | h3
          · exact Or.inl ((StringSet.mem_insert _ _ _).2 (Or.inr e))
          · exact Or.inr ⟨h3, h2⟩
      · intro x hx
        rcases hsub x hx with h | h
        · rcases (StringSet.mem_insert _ _ _).1 h with h' | h'
          · exact Or.inl h'
          · exact Or.inr (List.mem_cons.2 (Or.inl h'))
        · exact Or.inr (List.mem_cons_of_mem _ h)

/-- For any observed principals, repeated or not: the add batch holds exactly the
desired principals that are not observed; the remove batch holds every observed
principal that is not desired, and observed principals only. -/
theorem principalDelta_bounds (desired ps : List String) :
    ∃ toAdd toRemove, principalDelta desired (observedOf ps) = some (toAdd, toRemove) ∧
      (∀ x, x ∈ toAdd ↔ x ∈ desired ∧ x ∉ ps) ∧
      (∀ x, x ∈ ps ∧ x ∉ desired → x ∈ toRemove) ∧
      (∀ x, x ∈ toRemove → x ∈ ps) := by
  obtain ⟨a, r, he, ha, hsup, hsub⟩ :=
    reconcileLoop_bounds ps (desired.foldl StringSet.insert []) []
  refine ⟨a, r, he, ?_, ?_, ?_⟩
  · intro x
    rw [ha, StringSet.mem_foldl_insert]
    simp
  · intro x hx
    apply hsup
    refine Or.inr ⟨hx.1, ?_⟩
    rw [StringSet.mem_foldl_insert]
    simpa using hx.2
  · intro x hx
    simpa using hsub x hx

/-- Scenario B of the specification: desired `{P1, P3}`, observed `{P1, P2}`. -/
theorem principalDelta_scenario_B :
    principalDelta ["P1", "P3"] (observedOf ["P1", "P2"]) = some (["P3"], ["P2"]) := by
  decide

/-- C4, the code at the failing input: desired principals `[P1]`, and a remote
permission read that lists `P1` twice.  The first occurrence deletes `P1` from
`addPrincipals`, so the second one no longer finds it there and puts it in
`removePrincipals`: the remove batch is `[P1]`, although no observed principal
is missing from the desired list. -/
theorem C4_duplicate_observed_principal :
    principalDelta ["P1"] [{ Principal := some "P1" }, { Principal := some "P1" }]
      = some ([], ["P1"]) ∧
    (["P1", "P1"].filter fun x => x ∉ ["P1"]) = [] := by
  decide

/-- C5, the code at the failing input: an Update whose desired principals are
`[P1]` while the remote permission read lists `P1` twice.  `updateHandler` sends
one permission-modifying call that removes `P1`, a desired principal: the remove
batch meets the desired set, and applying the delta leaves no principal at all. -/
theorem C5_update_removes_desired_principal :
    permissionCalls (updateHandler (Sample.ec2World ["P1", "P1"]) (Sample.ec2Config ["P1"])
        (Sample.event "Update" "VpcEndpointService:vpce-svc-1" [])).trace
      = [{ ServiceId := some "vpce-svc-1"
           AddAllowedPrincipals := none
           RemoveAllowedPrincipals := some ["P1"] }] ∧
    "P1" ∈ (Sample.ec2Config ["P1"]).AllowedPrincipals ∧
    ((["P1", "P1"] ++ []).filter fun x => x ∉ ["P1"]) = [] :=
  ⟨rfl, by decide, by decide⟩

end VpcEndpointConfigurator

/-! ## Mutating calls of the endpoint-service provider -/

namespace VpcEndpointConfigurator

/-- C6 (amended): for an Update event with a present service id, when both
remote reads succeed, the observed principals are listed once each and are the
same set as the desired principals, `updateHandler` still issues exactly one
permission-modifying call; that call carries neither an add batch nor a remove
batch. -/
theorem C6_empty_delta_still_calls (w : World) (config : Config) (evt : cfn.Event)
    (sc : ec2.ServiceConfiguration) (scs : List ec2.ServiceConfiguration) (output : cfn.Map)
    (ps : List String)
    (hid : 2 ≤ (strings.Split evt.PhysicalResourceID PhyIdSeparator).length)
    (hcfg : w.DescribeVpcEndpointServiceConfigurations
        [(strings.Split evt.PhysicalResourceID PhyIdSeparator).getD 1 ""] = Except.ok (sc :: scs))
    (hout : updateOutput ((strings.Split evt.PhysicalResourceID PhyIdSeparator).getD 1 "") sc
        evt.ResourceProperties = some output)
    (hperm : w.DescribeVpcEndpointServicePermissions
        ((strings.Split evt.PhysicalResourceID PhyIdSeparator).getD 1 "")
        = Except.ok (observedOf ps))
    (hnd : ps.Nodup) (hsame : ∀ x, x ∈ config.AllowedPrincipals ↔ x ∈ ps) :
    permissionCalls (updateHandler w config evt).trace
      = [{ ServiceId := some ((strings.Split evt.PhysicalResourceID PhyIdSeparator).getD 1 "")
           AddAllowedPrincipals := none
           RemoveAllowedPrincipals := none }] := by
  obtain ⟨a, r, he, ha, hr⟩ := principalDelta_of_nodup config.AllowedPrincipals ps hnd
  have ha0 : a = [] := by
    apply List.eq_nil_iff_forall_not_mem.2
    intro x hx
    have := (ha x).1 hx
    exact this.2 ((hsame x).1 this.1)
  have hr0 : r = [] := by
    apply List.eq_nil_iff_forall_not_mem.2
    intro x hx
    have := (hr x).1 hx
    exact this.2 ((hsame x).2 this.1)
  subst ha0 hr0
  unfold updateHandler
  simp only [if_neg (Nat.not_lt.2 hid), hcfg, hout, hperm, he, List.length_nil, ne_eq,
    not_true_eq_false, if_false]
  repeat' split
  all_goals simp [sendThen, permissionCalls]

/-- C6, witness: desired `{P1, P2}`, observed `{P1, P2}` (scenario C). -/
theorem C6_empty_delta_still_calls_witness :
    ["P1", "P2"].Nodup ∧
    permissionCalls (updateHandler (Sample.ec2World ["P1", "P2"]) (Sample.ec2Config ["P1", "P2"])
        (Sample.event "Update" "VpcEndpointService:vpce-svc-1" [])).trace
      = [{ ServiceId := some
             ((strings.Split (Sample.event "Update" "VpcEndpointService:vpce-svc-1"
               []).PhysicalResourceID PhyIdSeparator).getD 1 "")
           AddAllowedPrincipals := none
           RemoveAllowedPrincipals := none }] :=
  ⟨by decide,
    C6_empty_delta_still_calls (Sample.ec2World ["P1", "P2"]) (Sample.ec2Config ["P1", "P2"])
      (Sample.event "Update" "VpcEndpointService:vpce-svc-1" [])
      (Sample.serviceConfiguration "vpce-svc-1") []
      [ ("ServiceId", cfn.Value.string "vpce-svc-1"),
        ("ServiceName", cfn.Value.string "com.amazonaws.vpce.svc"),
        ("PrivateDnsNameConfigurationName", cfn.Value.string "_x"),
        ("PrivateDnsNameConfigurationType", cfn.Value.string "TXT"),
        ("PrivateDnsNameConfigurationValue", cfn.Value.string "v"),
        ("PrivateDnsNameConfigurationState", cfn.Value.string "verified") ]
      ["P1", "P2"] (by decide) rfl rfl rfl (by decide) (fun _ => Iff.rfl)⟩

/-- C6, counterexample: scenario C, desired `{P1, P2}` and observed `{P1, P2}`.
All four remote calls of `updateHandler` are issued, the third being the
permission-modifying call, with both batches unset. -/
theorem C6_counterexample :
    (updateHandler (Sample.ec2World ["P1", "P2"]) (Sample.ec2Config ["P1", "P2"])
        (Sample.event "Update" "VpcEndpointService:vpce-svc-1" [])).trace.take 4
      = [Effect.call (Call.DescribeVpcEndpointServiceConfigurations ["vpce-svc-1"]),
         Effect.call (Call.DescribeVpcEndpointServicePermissions "vpce-svc-1"),
         Effect.call (Call.ModifyVpcEndpointServicePermissions
           { ServiceId := some "vpce-svc-1"
             AddAllowedPrincipals := none
             RemoveAllowedPrincipals := none }),
         Effect.call (Call.ModifyVpcEndpointServiceConfiguration
           { ServiceId := "vpce-svc-1"
             AcceptanceRequired := false
             PrivateDnsName := "proxy.example" })] ∧
    (permissionCalls (updateHandler (Sample.ec2World ["P1", "P2"]) (Sample.ec2Config ["P1", "P2"])
        (Sample.event "Update" "VpcEndpointService:vpce-svc-1" [])).trace).length = 1 :=
  ⟨rfl, rfl⟩

/-- C7 (amended): for a Create event whose remote create call succeeds and
answers with a service configuration, `createHandler` issues exactly one
permission-modifying call, whether the desired list is empty or not; its add
batch is the whole desired list and it has no remove batch. -/
theorem C7_create_always_adds (w : World) (config : Config) (evt : cfn.Event)
    (sc : ec2.ServiceConfiguration)
    (hcreate : w.CreateVpcEndpointServiceConfiguration
        { AcceptanceRequired := config.AcceptanceRequired
          NetworkLoadBalancerArns := config.NetworkLoadBalancerArns
          PrivateDnsName := config.PrivateDnsName }
      = Except.ok { ServiceConfiguration := some sc }) :
    permissionCalls (createHandler w config evt).trace
      = [{ ServiceId := sc.ServiceId
           AddAllowedPrincipals := some config.AllowedPrincipals
           RemoveAllowedPrincipals := none }] := by
  unfold createHandler
  simp only [hcreate]
  repeat' split
  all_goals simp [sendThen, permissionCalls]

/-- C7, witness: scenario A, a Create with desired principals `{P1, P2}`. -/
theorem C7_create_always_adds_witness :
    (Sample.ec2World []).CreateVpcEndpointServiceConfiguration
        { AcceptanceRequired := false
          NetworkLoadBalancerArns := ["arn:nlb-1"]
          PrivateDnsName := "proxy.example" }
      = Except.ok { ServiceConfiguration := some (Sample.serviceConfiguration "vpce-svc-1") } ∧
    permissionCalls (createHandler (Sample.ec2World []) (Sample.ec2Config ["P1", "P2"])
        (Sample.event "Create" "" [])).trace
      = [{ ServiceId := some "vpce-svc-1"
           AddAllowedPrincipals := some ["P1", "P2"]
           RemoveAllowedPrincipals := none }] :=
  ⟨rfl, C7_create_always_adds (Sample.ec2World []) (Sample.ec2Config ["P1", "P2"])
    (Sample.event "Create" "" []) (Sample.serviceConfiguration "vpce-svc-1") rfl⟩

/-- C7, counterexample: a Create with an empty `AllowedPrincipals` list whose
remote create call succeeds.  `createHandler` issues the permission-modifying
call all the same, with the empty list as its add batch. -/
theorem C7_counterexample :
    (Sample.ec2Config []).AllowedPrincipals = [] ∧
    (createHandler (Sample.ec2World []) (Sample.ec2Config [])
        (Sample.event "Create" "" [])).trace.take 2
      = [Effect.call (Call.CreateVpcEndpointServiceConfiguration
           { AcceptanceRequired := false
             NetworkLoadBalancerArns := ["arn:nlb-1"]
             PrivateDnsName := "proxy.example" }),
         Effect.call (Call.ModifyVpcEndpointServicePermissions
           { ServiceId := some "vpce-svc-1"
             AddAllowedPrincipals := some []
             RemoveAllowedPrincipals := none })] ∧
    (permissionCalls (createHandler (Sample.ec2World []) (Sample.ec2Config [])
        (Sample.event "Create" "" [])).trace).length = 1 :=
  ⟨rfl, rfl, rfl⟩

end VpcEndpointConfigurator

/-! ## Remote failures of Delete -/

namespace strings

/-- A string that holds the one-character separator has at least two segments. -/
theorem splitGo_single_length_of_mem (c : Char) (s : List Char) (h : c ∈ s) (cur : List Char) :
    2 ≤ (splitGo [c] 0 s cur).length := by
  induction s generalizing cur with
  | nil => simp at h
  | cons d ds ih =>
    rw [splitGo_single_cons]
    by_cases hd : c = d
    · rw [if_pos hd]
      have hne := splitGo_single_ne_nil c ds []
      cases hs : splitGo [c] 0 ds [] with
      | nil => exact absurd hs hne
      | cons x xs => simp
    · rw [if_neg hd]
      rcases List.mem_cons.1 h with e | e
      · exact absurd e hd
      · exact ih e _

theorem Split_length_of_mem (c : Char) (s : String) (h : c ∈ s.data) :
    2 ≤ (Split s (String.mk [c])).length := by
  simp [Split, splitGo_single_length_of_mem c s.data h]

end strings

/-- C11 (amended): for a Delete event whose token decodes to a present external
id, if the remote delete call fails with an error, whatever the error and a
not-found error included, `deleteHandler` of the endpoint-service provider and of
the webhook provider issues that one call and delivers an envelope of status
Failed; the envelope is returned whenever its delivery succeeds. -/
theorem C11_delete_error_fails
    (wv : VpcEndpointConfigurator.World) (cv : VpcEndpointConfigurator.Config)
    (wh : WebhookManager.World) (ch : WebhookManager.Config) (evtV evtH : cfn.Event)
    (ev eh : String) (hookId : Int)
    (hidV : 2 ≤ (strings.Split evtV.PhysicalResourceID VpcEndpointConfigurator.PhyIdSeparator).length)
    (hfailV : wv.DeleteVpcEndpointServiceConfigurations
        [(strings.Split evtV.PhysicalResourceID VpcEndpointConfigurator.PhyIdSeparator).getD 1 ""]
      = Except.error ev)
    (hidH : 2 ≤ (strings.Split evtH.PhysicalResourceID WebhookManager.PhyIdSeparator).length)
    (hparse : strconv.ParseInt
        ((strings.Split evtH.PhysicalResourceID WebhookManager.PhyIdSeparator).getD 1 "")
      = (hookId, none))
    (hfailH : wh.DeleteHook ch.GithubOwner ch.GithubRepo hookId = some eh) :
    ((VpcEndpointConfigurator.deleteHandler wv cv evtV).trace
        = [VpcEndpointConfigurator.Effect.call
            (VpcEndpointConfigurator.Call.DeleteVpcEndpointServiceConfigurations
              [(strings.Split evtV.PhysicalResourceID
                VpcEndpointConfigurator.PhyIdSeparator).getD 1 ""]),
           VpcEndpointConfigurator.Effect.send (VpcEndpointConfigurator.buildResponse evtV
             cfn.StatusFailed ("could not erase vpc endpoint configuration: " ++ ev)
             (some ((strings.Split evtV.PhysicalResourceID
               VpcEndpointConfigurator.PhyIdSeparator).getD 1 "")) [])] ∧
      (VpcEndpointConfigurator.buildResponse evtV cfn.StatusFailed
          ("could not erase vpc endpoint configuration: " ++ ev)
          (some ((strings.Split evtV.PhysicalResourceID
            VpcEndpointConfigurator.PhyIdSeparator).getD 1 "")) []).Status = cfn.StatusFailed ∧
      (wv.Send (VpcEndpointConfigurator.buildResponse evtV cfn.StatusFailed
          ("could not erase vpc endpoint configuration: " ++ ev)
          (some ((strings.Split evtV.PhysicalResourceID
            VpcEndpointConfigurator.PhyIdSeparator).getD 1 "")) []) = none →
        (VpcEndpointConfigurator.deleteHandler wv cv evtV).out
          = Outcome.returned (VpcEndpointConfigurator.buildResponse evtV cfn.StatusFailed
              ("could not erase vpc endpoint configuration: " ++ ev)
              (some ((strings.Split evtV.PhysicalResourceID
                VpcEndpointConfigurator.PhyIdSeparator).getD 1 "")) []) none)) ∧
    ((WebhookManager.deleteHandler wh ch evtH).trace
        = [WebhookManager.Effect.call
            (WebhookManager.Call.DeleteHook ch.GithubOwner ch.GithubRepo hookId),
           WebhookManager.Effect.send (WebhookManager.buildResponse evtH cfn.StatusFailed none)] ∧
      (WebhookManager.buildResponse evtH cfn.StatusFailed none).Status = cfn.StatusFailed ∧
      (wh.Send (WebhookManager.buildResponse evtH cfn.StatusFailed none) = none →
        (WebhookManager.deleteHandler wh ch evtH).out
          = Outcome.returned (WebhookManager.buildResponse evtH cfn.StatusFailed none)
              (some ("error in  deleting webhook: " ++ eh)))) := by
  have sV : ∀ reason sid data, (VpcEndpointConfigurator.buildResponse evtV cfn.StatusFailed
      reason sid data).Status = cfn.StatusFailed := by
    intro reason sid data
    unfold VpcEndpointConfigurator.buildResponse
    split <;> [skip; split] <;> rfl
  have sH : (WebhookManager.buildResponse evtH cfn.StatusFailed none).Status
      = cfn.StatusFailed := by
    unfold WebhookManager.buildResponse
    split <;> rfl
  refine ⟨⟨?_, sV _ _ _, ?_⟩, ⟨?_, sH, ?_⟩⟩
  · unfold VpcEndpointConfigurator.deleteHandler
    simp only [if_neg (Nat.not_lt.2 hidV), hfailV]
    simp [VpcEndpointConfigurator.sendThen]
  · intro hs
    unfold VpcEndpointConfigurator.deleteHandler
    simp only [if_neg (Nat.not_lt.2 hidV), hfailV, VpcEndpointConfigurator.sendThen, hs]
  · unfold WebhookManager.deleteHandler
    simp only [if_neg (Nat.not_lt.2 hidH), hparse, hfailH]
    simp [WebhookManager.sendThen]
  · intro hs
    unfold WebhookManager.deleteHandler
    simp only [if_neg (Nat.not_lt.2 hidH), hparse, hfailH, WebhookManager.sendThen, hs]

/-- C11, witness: both delete calls fail with a not-found error. -/
theorem C11_delete_error_fails_witness :
    2 ≤ (strings.Split (Sample.event "Delete" "VpcEndpointService:vpce-svc-1" []).PhysicalResourceID
      VpcEndpointConfigurator.PhyIdSeparator).length ∧
    strconv.ParseInt ((strings.Split (Sample.event "Delete" "githubwebhookmanager-42"
      []).PhysicalResourceID WebhookManager.PhyIdSeparator).getD 1 "") = (42, none) ∧
    (VpcEndpointConfigurator.deleteHandler Sample.ec2WorldDeleteNotFound (Sample.ec2Config [])
        (Sample.event "Delete" "VpcEndpointService:vpce-svc-1" [])).out
      = Outcome.returned (VpcEndpointConfigurator.buildResponse
          (Sample.event "Delete" "VpcEndpointService:vpce-svc-1" []) cfn.StatusFailed
          ("could not erase vpc endpoint configuration: "
            ++ "InvalidVpcEndpointServiceId.NotFound: The VpcEndpointService Id does not exist")
          (some ((strings.Split (Sample.event "Delete" "VpcEndpointService:vpce-svc-1"
            []).PhysicalResourceID VpcEndpointConfigurator.PhyIdSeparator).getD 1 "")) []) none ∧
    (WebhookManager.buildResponse (Sample.event "Delete" "githubwebhookmanager-42" [])
        cfn.StatusFailed none).Status = cfn.StatusFailed :=
  have h := C11_delete_error_fails Sample.ec2WorldDeleteNotFound (Sample.ec2Config [])
    Sample.hookWorldDeleteNotFound Sample.hookConfig
    (Sample.event "Delete" "VpcEndpointService:vpce-svc-1" [])
    (Sample.event "Delete" "githubwebhookmanager-42" [])
    "InvalidVpcEndpointServiceId.NotFound: The VpcEndpointService Id does not exist"
    "DELETE https://api.github.com/repos/owner/repo/hooks/42: 404 Not Found []" 42
    (by decide) rfl (by decide) (by decide) rfl
  ⟨by decide, by decide, h.1.2.2 rfl, h.2.2.1⟩

/-- C11, counterexample: Delete events with a present external id whose remote
delete call fails with a not-found error.  Both `deleteHandler`s return an
envelope of status `FAILED`, not `SUCCESS`. -/
theorem C11_counterexample :
    (∃ resp, (VpcEndpointConfigurator.deleteHandler Sample.ec2WorldDeleteNotFound
          (Sample.ec2Config []) (Sample.event "Delete" "VpcEndpointService:vpce-svc-1" [])).out
        = Outcome.returned resp none ∧
      resp.Status = "FAILED" ∧ resp.Status ≠ cfn.StatusSuccess) ∧
    (∃ resp err, (WebhookManager.deleteHandler Sample.hookWorldDeleteNotFound Sample.hookConfig
          (Sample.event "Delete" "githubwebhookmanager-42" [])).out
        = Outcome.returned resp (some err) ∧
      resp.Status = "FAILED" ∧ resp.Status ≠ cfn.StatusSuccess) :=
  ⟨⟨_, rfl, by decide, by decide⟩, ⟨_, _, rfl, by decide, by decide⟩⟩

/-- C12: for a Delete event of the endpoint-service provider whose physical id
contains `":"`, if the remote batch delete returns without error but with a
non-empty list of unsuccessful items, `deleteHandler` issues that one call and
delivers an envelope of status Failed whose physical id is the prior physical id
of the event; the envelope is returned whenever its delivery succeeds. -/
theorem C12_partial_delete_fails (w : VpcEndpointConfigurator.World)
    (config : VpcEndpointConfigurator.Config) (evt : cfn.Event)
    (unsuccessful : List ec2.UnsuccessfulItem)
    (hsep : ':' ∈ evt.PhysicalResourceID.data)
    (hdel : w.DeleteVpcEndpointServiceConfigurations
        [(strings.Split evt.PhysicalResourceID VpcEndpointConfigurator.PhyIdSeparator).getD 1 ""]
      = Except.ok unsuccessful)
    (hne : unsuccessful ≠ []) :
    (VpcEndpointConfigurator.deleteHandler w config evt).trace
      = [VpcEndpointConfigurator.Effect.call
          (VpcEndpointConfigurator.Call.DeleteVpcEndpointServiceConfigurations
            [(strings.Split evt.PhysicalResourceID
              VpcEndpointConfigurator.PhyIdSeparator).getD 1 ""]),
         VpcEndpointConfigurator.Effect.send (VpcEndpointConfigurator.buildResponse evt
           cfn.StatusFailed "unsuccessful in erasing vpc endpoint configuration. please see logs"
           (some ((strings.Split evt.PhysicalResourceID
             VpcEndpointConfigurator.PhyIdSeparator).getD 1 "")) [])] ∧
    (VpcEndpointConfigurator.buildResponse evt cfn.StatusFailed
        "unsuccessful in erasing vpc endpoint configuration. please see logs"
        (some ((strings.Split evt.PhysicalResourceID
          VpcEndpointConfigurator.PhyIdSeparator).getD 1 "")) []).Status = cfn.StatusFailed ∧
    (VpcEndpointConfigurator.buildResponse evt cfn.StatusFailed
        "unsuccessful in erasing vpc endpoint configuration. please see logs"
        (some ((strings.Split evt.PhysicalResourceID
          VpcEndpointConfigurator.PhyIdSeparator).getD 1 "")) []).PhysicalResourceID
      = evt.PhysicalResourceID ∧
    (w.Send (VpcEndpointConfigurator.buildResponse evt cfn.StatusFailed
        "unsuccessful in erasing vpc endpoint configuration. please see logs"
        (some ((strings.Split evt.PhysicalResourceID
          VpcEndpointConfigurator.PhyIdSeparator).getD 1 "")) []) = none →
      (VpcEndpointConfigurator.deleteHandler w config evt).out
        = Outcome.returned (VpcEndpointConfigurator.buildResponse evt cfn.StatusFailed
            "unsuccessful in erasing vpc endpoint configuration. please see logs"
            (some ((strings.Split evt.PhysicalResourceID
              VpcEndpointConfigurator.PhyIdSeparator).getD 1 "")) []) none) := by
  have hid : 2 ≤ (strings.Split evt.PhysicalResourceID
      VpcEndpointConfigurator.PhyIdSeparator).length :=
    strings.Split_length_of_mem ':' _ hsep
  have hnonempty : evt.PhysicalResourceID ≠ "" := by
    intro h
    rw [h] at hsep
    simp at hsep
  have hlen : unsuccessful.length ≠ 0 := fun h => hne (List.length_eq_zero.1 h)
  refine ⟨?_, ?_, ?_, ?_⟩
  · unfold VpcEndpointConfigurator.deleteHandler
    simp only [if_neg (Nat.not_lt.2 hid), hdel, if_pos hlen]
    simp [VpcEndpointConfigurator.sendThen]
  · simp [VpcEndpointConfigurator.buildResponse, hnonempty]
  · simp [VpcEndpointConfigurator.buildResponse, hnonempty]
  · intro hs
    unfold VpcEndpointConfigurator.deleteHandler
    simp only [if_neg (Nat.not_lt.2 hid), hdel, if_pos hlen, VpcEndpointConfigurator.sendThen, hs]

/-- C12, witness: the delete of `vpce-svc-1` reports one unsuccessful item
(scenario D). -/
theorem C12_partial_delete_fails_witness :
    ':' ∈ (Sample.event "Delete" "VpcEndpointService:vpce-svc-1" []).PhysicalResourceID.data ∧
    (VpcEndpointConfigurator.buildResponse (Sample.event "Delete" "VpcEndpointService:vpce-svc-1" [])
        cfn.StatusFailed "unsuccessful in erasing vpc endpoint configuration. please see logs"
        (some ((strings.Split (Sample.event "Delete" "VpcEndpointService:vpce-svc-1"
          []).PhysicalResourceID VpcEndpointConfigurator.PhyIdSeparator).getD 1 "")) []).PhysicalResourceID
      = (Sample.event "Delete" "VpcEndpointService:vpce-svc-1" []).PhysicalResourceID ∧
    (VpcEndpointConfigurator.deleteHandler Sample.ec2WorldPartialDelete (Sample.ec2Config [])
        (Sample.event "Delete" "VpcEndpointService:vpce-svc-1" [])).out
      = Outcome.returned (VpcEndpointConfigurator.buildResponse
          (Sample.event "Delete" "VpcEndpointService:vpce-svc-1" [])
          cfn.StatusFailed "unsuccessful in erasing vpc endpoint configuration. please see logs"
          (some ((strings.Split (Sample.event "Delete" "VpcEndpointService:vpce-svc-1"
            []).PhysicalResourceID VpcEndpointConfigurator.PhyIdSeparator).getD 1 "")) []) none :=
  have h := C12_partial_delete_fails Sample.ec2WorldPartialDelete (Sample.ec2Config [])
    (Sample.event "Delete" "VpcEndpointService:vpce-svc-1" [])
    [{ ResourceId := some "vpce-svc-1" }] (by decide) rfl (by simp)
  ⟨by decide, h.2.2.1, h.2.2.2 rfl⟩

/-! ## Conflict on Create -/

namespace WebhookManager

/-- The branch `case 422` of `createHandler` as it is written: with a nil error
and status 422 the envelope has status Success. -/
theorem createHandler_conflict_of_nil_error (w : World) (config : Config) (evt : cfn.Event)
    (hook : Option github.Hook)
    (h : w.CreateHook config.GithubOwner config.GithubRepo (newHook config)
      = { hook := hook, resp := some { Response := some { StatusCode := 422 } }, err := none }) :
    (createHandler w config evt).trace
      = [Effect.call (Call.CreateHook config.GithubOwner config.GithubRepo (newHook config)),
         Effect.send (buildResponse evt cfn.StatusSuccess none)] := by
  unfold createHandler
  simp only [h]
  simp [sendThen]

/-- C13, the code at the failing input: a Create event with valid declared
properties, and a create-hook call that reports that the hook already exists:
status 422, which the client library hands over together with a non-nil error.
`createHandler` tests the error before the status, never reaches its branch
`case 422`, and returns an envelope of status `FAILED`. -/
theorem C13_conflict_fails :
    (Sample.hookWorldConflict.CreateHook "owner" "repo" (newHook Sample.hookConfig)).resp
      = some { Response := some { StatusCode := 422 } } ∧
    (createHandler Sample.hookWorldConflict Sample.hookConfig
        (Sample.event "Create" "" Sample.hookProps)).trace
      = [Effect.call (Call.CreateHook "owner" "repo" (newHook Sample.hookConfig)),
         Effect.send (buildResponse (Sample.event "Create" "" Sample.hookProps)
           cfn.StatusFailed none)] ∧
    (createHandler Sample.hookWorldConflict Sample.hookConfig
        (Sample.event "Create" "" Sample.hookProps)).out
      = Outcome.returned (buildResponse (Sample.event "Create" "" Sample.hookProps)
          cfn.StatusFailed none)
          (some ("error in registering webhook: " ++ "POST https://api.github.com/repos/owner/repo/hooks: 422 Validation Failed [Hook already exists on this repository]")) ∧
    (buildResponse (Sample.event "Create" "" Sample.hookProps) cfn.StatusFailed none).Status
      = "FAILED" ∧
    (buildResponse (Sample.event "Create" "" Sample.hookProps) cfn.StatusFailed none).Status
      ≠ cfn.StatusSuccess :=
  ⟨rfl, rfl, rfl, by decide, by decide⟩

end WebhookManager

/-! ## Validation of the declared properties -/

namespace VpcEndpointConfigurator

/-- C15, the code at the failing input: an event whose `NetworkLoadBalancerArns`
is the list `["arn:nlb-1", 5]`, the other three properties being well typed.
The four reads succeed, then the one-value assertion `v.(string)` panics on the
number: `readResourceProperties` returns no error, and `handler` ends in the
panic without having delivered any envelope.  The same happens when
`AllowedPrincipals` is the list `[true, "P1"]`. -/
theorem C15_mistyped_element_panics :
    firstFailing (Sample.event "Create" "" Sample.ec2PropsMistypedElement) = none ∧
    readResourceProperties (Sample.event "Create" "" Sample.ec2PropsMistypedElement)
      = ReadResult.panicked ∧
    (handler (Sample.ec2World []) (Sample.event "Create" "" Sample.ec2PropsMistypedElement)).trace
      = [] ∧
    (handler (Sample.ec2World []) (Sample.event "Create" "" Sample.ec2PropsMistypedElement)).out
      = Outcome.panicked ∧
    readResourceProperties (Sample.event "Create" "" Sample.ec2PropsMistypedPrincipal)
      = ReadResult.panicked ∧
    (handler (Sample.ec2World []) (Sample.event "Create" "" Sample.ec2PropsMistypedPrincipal)).out
      = Outcome.panicked :=
  ⟨by decide, rfl, rfl, rfl, rfl, rfl⟩

end VpcEndpointConfigurator

namespace VpcEndpointConfigurator

/-- The reader returns an error naming `f` exactly when `f` is the first key of
the schema that is missing or mistyped. -/
theorem readResourceProperties_failed_iff (evt : cfn.Event) (f : String) :
    (∃ err, readResourceProperties evt = ReadResult.failed f err) ↔ firstFailing evt = some f := by
  unfold readResourceProperties readProperty firstFailing schema
  simp only [List.find?, failing]
  rcases evt.ResourceProperties.get "NetworkLoadBalancerArns" with _ | (_ | _ | _ | _ | _ | _) <;>
    simp [Kind.holds, cfn.Value.asList, cfn.Value.asString, eq_comm]
  rcases evt.ResourceProperties.get "AllowedPrincipals" with _ | (_ | _ | _ | _ | _ | _) <;>
    simp [Kind.holds, cfn.Value.asList, cfn.Value.asString, eq_comm]
  rcases evt.ResourceProperties.get "AcceptanceRequired" with _ | (_ | _ | _ | _ | _ | _) <;>
    simp [Kind.holds, cfn.Value.asList, cfn.Value.asString, eq_comm]
  rcases evt.ResourceProperties.get "PrivateDnsName" with _ | (_ | _ | _ | _ | _ | _) <;>
    simp [Kind.holds, cfn.Value.asList, cfn.Value.asString, eq_comm]
  intro err
  repeat' split
  all_goals simp

end VpcEndpointConfigurator

namespace VpcEndpointConfigurator

@[simp] theorem buildResponse_Status (evt : cfn.Event) (status : cfn.StatusType) (reason : String)
    (serviceId : Option String) (data : cfn.Map) :
    (buildResponse evt status reason serviceId data).Status = status := by
  unfold buildResponse
  split <;> [skip; split] <;> rfl

@[simp] theorem buildResponse_Reason (evt : cfn.Event) (status : cfn.StatusType) (reason : String)
    (serviceId : Option String) (data : cfn.Map) :
    (buildResponse evt status reason serviceId data).Reason = reason := by
  unfold buildResponse
  split <;> [skip; split] <;> rfl

@[simp] theorem buildResponse_Data (evt : cfn.Event) (status : cfn.StatusType) (reason : String)
    (serviceId : Option String) (data : cfn.Map) :
    (buildResponse evt status reason serviceId data).Data = data := by
  unfold buildResponse
  split <;> [skip; split] <;> rfl

/-- C14: `readResourceProperties` returns an error naming `f` exactly when `f` is
the first of `NetworkLoadBalancerArns`, `AllowedPrincipals`, `AcceptanceRequired`,
`PrivateDnsName` (in that order) that is missing or has the wrong dynamic type;
it returns an error at all exactly when one of the four is missing or mistyped;
and `handler` then, whatever the request type, performs a single effect, the
delivery of an envelope of status Failed with the reason
`"error in reading property: " ++ f`, which it returns with an error whenever the
delivery succeeds: no lifecycle handler runs. -/
theorem C14_validation_names_first_failing (w : World) (evt : cfn.Event) (f : String) :
    ((∃ err, readResourceProperties evt = ReadResult.failed f err) ↔ firstFailing evt = some f) ∧
    ((∃ g err, readResourceProperties evt = ReadResult.failed g err)
      ↔ ∃ p ∈ schema, failing evt p = true) ∧
    (firstFailing evt = some f →
      (handler w evt).trace
        = [Effect.send (buildResponse evt cfn.StatusFailed ("error in reading property: " ++ f)
            none [])] ∧
      (buildResponse evt cfn.StatusFailed ("error in reading property: " ++ f) none []).Status
        = cfn.StatusFailed ∧
      (buildResponse evt cfn.StatusFailed ("error in reading property: " ++ f) none []).Reason
        = "error in reading property: " ++ f ∧
      (w.Send (buildResponse evt cfn.StatusFailed ("error in reading property: " ++ f) none [])
          = none →
        ∃ err, (handler w evt).out
          = Outcome.returned
              (buildResponse evt cfn.StatusFailed ("error in reading property: " ++ f) none [])
              (some ("error in reading " ++ f ++ ": " ++ err)))) := by
  refine ⟨readResourceProperties_failed_iff evt f, ?_, ?_⟩
  · constructor
    · rintro ⟨g, err, h⟩
      have hg := (readResourceProperties_failed_iff evt g).1 ⟨err, h⟩
      unfold firstFailing at hg
      cases hfind : schema.find? (failing evt) with
      | none => rw [hfind] at hg; simp at hg
      | some p => exact ⟨p, List.mem_of_find?_eq_some hfind, List.find?_some hfind⟩
    · rintro ⟨p, hp, hfail⟩
      cases hfind : schema.find? (failing evt) with
      | none =>
        have := List.find?_eq_none.1 hfind p hp
        exact absurd hfail this
      | some q =>
        obtain ⟨err, h⟩ := (readResourceProperties_failed_iff evt q.1).2
          (by unfold firstFailing; rw [hfind]; rfl)
        exact ⟨q.1, err, h⟩
  · intro hf
    obtain ⟨err, h⟩ := (readResourceProperties_failed_iff evt f).2 hf
    refine ⟨?_, buildResponse_Status _ _ _ _ _, buildResponse_Reason _ _ _ _ _, ?_⟩
    · unfold handler
      simp only [h, readPropertyErrorHandler, sendThen, List.nil_append]
    · intro hs
      refine ⟨err, ?_⟩
      unfold handler
      simp only [h, readPropertyErrorHandler, sendThen, hs]

/-- C14, witness: an Update event in which `AllowedPrincipals` is a string and
`PrivateDnsName` is missing. -/
theorem C14_validation_names_first_failing_witness :
    firstFailing (Sample.event "Update" "VpcEndpointService:vpce-svc-1"
      [ ("NetworkLoadBalancerArns", cfn.Value.list []),
        ("AllowedPrincipals", cfn.Value.string "P1"),
        ("AcceptanceRequired", cfn.Value.string "true") ]) = some "AllowedPrincipals" ∧
    (handler (Sample.ec2World []) (Sample.event "Update" "VpcEndpointService:vpce-svc-1"
      [ ("NetworkLoadBalancerArns", cfn.Value.list []),
        ("AllowedPrincipals", cfn.Value.string "P1"),
        ("AcceptanceRequired", cfn.Value.string "true") ])).trace
      = [Effect.send (buildResponse (Sample.event "Update" "VpcEndpointService:vpce-svc-1"
          [ ("NetworkLoadBalancerArns", cfn.Value.list []),
            ("AllowedPrincipals", cfn.Value.string "P1"),
            ("AcceptanceRequired", cfn.Value.string "true") ])
          cfn.StatusFailed ("error in reading property: " ++ "AllowedPrincipals") none [])] :=
  ⟨by decide,
    ((C14_validation_names_first_failing (Sample.ec2World [])
      (Sample.event "Update" "VpcEndpointService:vpce-svc-1"
        [ ("NetworkLoadBalancerArns", cfn.Value.list []),
          ("AllowedPrincipals", cfn.Value.string "P1"),
          ("AcceptanceRequired", cfn.Value.string "true") ]) "AllowedPrincipals").2.2
      (by decide)).1⟩

end VpcEndpointConfigurator

namespace WebhookManager

@[simp] theorem buildResponse_Status_hook (evt : cfn.Event) (status : cfn.StatusType)
    (hookID : Option Int) : (buildResponse evt status hookID).Status = status := by
  unfold buildResponse
  split <;> [skip; split] <;> rfl

@[simp] theorem buildResponse_Reason_hook (evt : cfn.Event) (status : cfn.StatusType)
    (hookID : Option Int) : (buildResponse evt status hookID).Reason = "" := by
  unfold buildResponse
  split <;> [skip; split] <;> rfl

/-- With one of the first four properties missing or mistyped, the reader
returns an error before any effect. -/
theorem readResourceProperties_early (w : World) (evt : cfn.Event)
    (h : (isString evt "GithubOwner" && isString evt "GithubRepo" && isString evt "GithubBranch"
        && isString evt "GithubTokenArn") = false) :
    ∃ f err, readResourceProperties w evt = ([], ReadResult.failed f err) := by
  unfold isString at h
  unfold readResourceProperties readProperty
  cases h1 : evt.ResourceProperties.get "GithubOwner" with
  | none => simp
  | some v1 =>
    cases v1 <;> simp [cfn.Value.asString]
    cases h2 : evt.ResourceProperties.get "GithubRepo" with
    | none => simp
    | some v2 =>
      cases v2 <;> simp [cfn.Value.asString]
      cases h3 : evt.ResourceProperties.get "GithubBranch" with
      | none => simp
      | some v3 =>
        cases v3 <;> simp [cfn.Value.asString]
        cases h4 : evt.ResourceProperties.get "GithubTokenArn" with
        | none => simp
        | some v4 =>
          cases v4 <;> simp [cfn.Value.asString]
          simp [h1, h2, h3, h4] at h

/-- With the first four properties well typed and `WebhookURL` missing or
mistyped, the reader returns an error after the secret was asked for. -/
theorem readResourceProperties_late (w : World) (evt : cfn.Event) (arn : String)
    (h1 : isString evt "GithubOwner" = true) (h2 : isString evt "GithubRepo" = true)
    (h3 : isString evt "GithubBranch" = true)
    (h4 : evt.ResourceProperties.get "GithubTokenArn" = some (cfn.Value.string arn))
    (h5 : isString evt "WebhookURL" = false) :
    ∃ f err, readResourceProperties w evt
      = ([Effect.call (Call.GetSecretValue arn)], ReadResult.failed f err) := by
  unfold isString at h1 h2 h3 h5
  unfold readResourceProperties readProperty readGithubToken
  cases g1 : evt.ResourceProperties.get "GithubOwner" with
  | none => simp [g1] at h1
  | some v1 =>
    cases v1 <;> simp [g1] at h1
    cases g2 : evt.ResourceProperties.get "GithubRepo" with
    | none => simp [g2] at h2
    | some v2 =>
      cases v2 <;> simp [g2] at h2
      cases g3 : evt.ResourceProperties.get "GithubBranch" with
      | none => simp [g3] at h3
      | some v3 =>
        cases v3 <;> simp [g3] at h3
        simp only [h4, cfn.Value.asString]
        cases w.GetSecretValue arn with
        | error e => simp
        | ok secret =>
          cases g5 : evt.ResourceProperties.get "WebhookURL" with
          | none => simp
          | some v5 =>
            cases v5 <;> simp [cfn.Value.asString]
            simp [g5] at h5

/-- After a reader error the handler only delivers the Failed envelope. -/
theorem handler_of_failed (w : World) (evt : cfn.Event) (pre : List Effect) (f err : String)
    (h : readResourceProperties w evt = (pre, ReadResult.failed f err)) :
    (handler w evt).trace = pre ++ [Effect.send (buildResponse evt cfn.StatusFailed none)] ∧
    (w.Send (buildResponse evt cfn.StatusFailed none) = none →
      (handler w evt).out = Outcome.returned (buildResponse evt cfn.StatusFailed none)
        (some ("error in reading " ++ f ++ ": " ++ err))) := by
  constructor
  · unfold handler
    simp only [h, readPropertyErrorHandler, sendThen, Run.after, List.nil_append]
  · intro hs
    unfold handler
    simp only [h, readPropertyErrorHandler, sendThen, Run.after, hs]

/-- C18 (amended): when one of `GithubOwner`, `GithubRepo`, `GithubBranch`,
`GithubTokenArn` is missing or not a string, `handler` performs a single effect,
the delivery of an envelope of status Failed: no external collaborator is
called.  When these four are strings and `WebhookURL` is missing or not a
string, `handler` first asks the secret resolver for the secret named by
`GithubTokenArn`, then delivers an envelope of status Failed: the webhook API is
not called.  In both cases the envelope is returned with an error whenever its
delivery succeeds. -/
theorem C18_validation_and_secret_read (w : World) (evt : cfn.Event) :
    ((isString evt "GithubOwner" && isString evt "GithubRepo" && isString evt "GithubBranch"
        && isString evt "GithubTokenArn") = false →
      (handler w evt).trace = [Effect.send (buildResponse evt cfn.StatusFailed none)] ∧
      (w.Send (buildResponse evt cfn.StatusFailed none) = none →
        ∃ err, (handler w evt).out
          = Outcome.returned (buildResponse evt cfn.StatusFailed none) (some err))) ∧
    (∀ arn, isString evt "GithubOwner" = true → isString evt "GithubRepo" = true →
      isString evt "GithubBranch" = true →
      evt.ResourceProperties.get "GithubTokenArn" = some (cfn.Value.string arn) →
      isString evt "WebhookURL" = false →
      (handler w evt).trace
        = [Effect.call (Call.GetSecretValue arn),
           Effect.send (buildResponse evt cfn.StatusFailed none)] ∧
      (w.Send (buildResponse evt cfn.StatusFailed none) = none →
        ∃ err, (handler w evt).out
          = Outcome.returned (buildResponse evt cfn.StatusFailed none) (some err))) ∧
    (buildResponse evt cfn.StatusFailed none).Status = cfn.StatusFailed := by
  refine ⟨?_, ?_, buildResponse_Status_hook _ _ _⟩
  · intro h
    obtain ⟨f, err, hr⟩ := readResourceProperties_early w evt h
    have hh := handler_of_failed w evt [] f err hr
    exact ⟨by simpa using hh.1, fun hs => ⟨_, hh.2 hs⟩⟩
  · intro arn h1 h2 h3 h4 h5
    obtain ⟨f, err, hr⟩ := readResourceProperties_late w evt arn h1 h2 h3 h4 h5
    have hh := handler_of_failed w evt _ f err hr
    exact ⟨by simpa using hh.1, fun hs => ⟨_, hh.2 hs⟩⟩

/-- C18, witness: `GithubRepo` is a number (no call at all), and `WebhookURL` is
missing (the secret is read first). -/
theorem C18_validation_and_secret_read_witness :
    (handler (Sample.hookWorld 1) (Sample.event "Create" ""
        [("GithubOwner", cfn.Value.string "owner"), ("GithubRepo", cfn.Value.number 7)])).trace
      = [Effect.send (buildResponse (Sample.event "Create" ""
          [("GithubOwner", cfn.Value.string "owner"), ("GithubRepo", cfn.Value.number 7)])
          cfn.StatusFailed none)] ∧
    (handler (Sample.hookWorld 1) (Sample.event "Create" "" Sample.hookPropsWithoutURL)).trace
      = [Effect.call (Call.GetSecretValue "arn:secret"),
         Effect.send (buildResponse (Sample.event "Create" "" Sample.hookPropsWithoutURL)
           cfn.StatusFailed none)] :=
  ⟨((C18_validation_and_secret_read (Sample.hookWorld 1) (Sample.event "Create" ""
      [("GithubOwner", cfn.Value.string "owner"), ("GithubRepo", cfn.Value.number 7)])).1
      (by decide)).1,
    ((C18_validation_and_secret_read (Sample.hookWorld 1)
      (Sample.event "Create" "" Sample.hookPropsWithoutURL)).2.1 "arn:secret"
      (by decide) (by decide) (by decide) rfl (by decide)).1⟩

/-- C18, counterexample: a Create event in which `WebhookURL` is missing and the
other four properties are strings.  The invocation ends with an envelope of
status `FAILED`, but the secret resolver was called before. -/
theorem C18_counterexample :
    isString (Sample.event "Create" "" Sample.hookPropsWithoutURL) "WebhookURL" = false ∧
    calls (handler (Sample.hookWorld 1)
        (Sample.event "Create" "" Sample.hookPropsWithoutURL)).trace
      = [Call.GetSecretValue "arn:secret"] ∧
    (∃ resp err, (handler (Sample.hookWorld 1)
          (Sample.event "Create" "" Sample.hookPropsWithoutURL)).out
        = Outcome.returned resp (some err) ∧ resp.Status = "FAILED") :=
  ⟨by decide, rfl, ⟨_, _, rfl, by decide⟩⟩

end WebhookManager

/-! ## Reasons of the webhook provider -/

namespace WebhookManager

theorem mem_after (pre : List Effect) (r : Run) (resp : cfn.Response)
    (h : Effect.send resp ∈ (Run.after pre r).trace) :
    Effect.send resp ∈ pre ∨ Effect.send resp ∈ r.trace := by
  simpa [Run.after] using h

/-- The reader performs no delivery. -/
theorem readResourceProperties_no_send (w : World) (evt : cfn.Event) (resp : cfn.Response) :
    Effect.send resp ∉ (readResourceProperties w evt).1 := by
  unfold readResourceProperties
  repeat' split
  all_goals simp

theorem deleteHandler_sends (w : World) (config : Config) (evt : cfn.Event) (resp : cfn.Response)
    (h : Effect.send resp ∈ (deleteHandler w config evt).trace) :
    ∃ status hookID, resp = buildResponse evt status hookID := by
  unfold deleteHandler at h
  simp only [sendThen] at h
  repeat' split at h
  all_goals simp at h
  all_goals exact ⟨_, _, h⟩

theorem updateHandler_sends (w : World) (config : Config) (evt : cfn.Event) (resp : cfn.Response)
    (h : Effect.send resp ∈ (updateHandler w config evt).trace) :
    ∃ status hookID, resp = buildResponse evt status hookID := by
  unfold updateHandler at h
  simp only [sendThen] at h
  repeat' split at h
  all_goals simp at h
  all_goals exact ⟨_, _, h⟩

theorem createHandler_sends (w : World) (config : Config) (evt : cfn.Event) (resp : cfn.Response)
    (h : Effect.send resp ∈ (createHandler w config evt).trace) :
    ∃ status hookID, resp = buildResponse evt status hookID := by
  unfold createHandler at h
  simp only [sendThen] at h
  repeat' split at h
  all_goals simp at h
  all_goals exact ⟨_, _, h⟩

/-- Every envelope of the webhook `handler` is built by `buildResponse` from the
event, a status and a nil-able hook id. -/
theorem handler_sends (w : World) (evt : cfn.Event) (resp : cfn.Response)
    (h : Effect.send resp ∈ (handler w evt).trace) :
    ∃ status hookID, resp = buildResponse evt status hookID := by
  have hpre := readResourceProperties_no_send w evt resp
  unfold handler at h
  split at h
  · rename_i pre field err heq
    rw [heq] at hpre
    rcases mem_after _ _ _ h with h1 | h1
    · exact absurd h1 hpre
    · simp [readPropertyErrorHandler, sendThen] at h1
      exact ⟨_, _, h1⟩
  · rename_i pre heq
    rw [heq] at hpre
    exact absurd h hpre
  · rename_i pre config heq
    rw [heq] at hpre
    split at h
    · rcases mem_after _ _ _ h with h1 | h1
      · exact absurd h1 hpre
      · exact updateHandler_sends w config evt resp h1
    · split at h
      · rcases mem_after _ _ _ h with h1 | h1
        · exact absurd h1 hpre
        · exact createHandler_sends w config evt resp h1
      · split at h
        · rcases mem_after _ _ _ h with h1 | h1
          · exact absurd h1 hpre
          · exact deleteHandler_sends w config evt resp h1
        · simp only [sendThen, List.mem_append, List.mem_singleton] at h
          rcases h with h1 | h1
          · exact absurd h1 hpre
          · exact ⟨_, _, Effect.send.inj h1⟩

/-- C16 (amended): no envelope of the webhook provider carries a reason.  For
every event and every outcome of the remote calls, each envelope whose delivery
`handler` attempts, of status Failed or Success, has the empty string as its
reason. -/
theorem C16_envelopes_have_no_reason (w : World) (evt : cfn.Event) (resp : cfn.Response)
    (h : Effect.send resp ∈ (handler w evt).trace) : resp.Reason = "" := by
  obtain ⟨status, hookID, rfl⟩ := handler_sends w evt resp h
  exact buildResponse_Reason_hook _ _ _

/-- C16, witness: the envelope of a Create whose remote call fails. -/
theorem C16_envelopes_have_no_reason_witness :
    Effect.send (buildResponse (Sample.event "Create" "" Sample.hookProps) cfn.StatusFailed none)
      ∈ (handler Sample.hookWorldCreateFails (Sample.event "Create" "" Sample.hookProps)).trace ∧
    (buildResponse (Sample.event "Create" "" Sample.hookProps) cfn.StatusFailed none).Reason
      = "" :=
  have hmem : Effect.send (buildResponse (Sample.event "Create" "" Sample.hookProps)
        cfn.StatusFailed none)
      ∈ (handler Sample.hookWorldCreateFails (Sample.event "Create" "" Sample.hookProps)).trace :=
    List.mem_cons_of_mem _ (List.mem_cons_of_mem _ (List.mem_singleton.2 rfl))
  ⟨hmem, C16_envelopes_have_no_reason Sample.hookWorldCreateFails
    (Sample.event "Create" "" Sample.hookProps) _ hmem⟩

/-- C16, counterexample: a Create event with valid declared properties whose
remote create call fails.  `handler` returns an envelope of status `FAILED` whose
reason is the empty string. -/
theorem C16_counterexample :
    ∃ resp err, (handler Sample.hookWorldCreateFails
          (Sample.event "Create" "" Sample.hookProps)).out
        = Outcome.returned resp (some err) ∧
      resp.Status = "FAILED" ∧ resp.Reason = "" ∧ ¬ (resp.Reason ≠ "") :=
  ⟨_, _, rfl, by decide, by decide, by decide⟩

end WebhookManager

/-! ## Outputs of a successful Update -/

namespace cfn

theorem Map.get_set_same (m : Map) (k : String) (v : Value) : (Map.set m k v).get k = some v := by
  induction m with
  | nil => simp [Map.set, Map.get, List.lookup]
  | cons p m ih =>
    obtain ⟨k0, v0⟩ := p
    unfold Map.set
    by_cases h : k0 = k
    · simp [h, Map.get, List.lookup]
    · have hne : (k == k0) = false := by simpa using fun e => h e.symm
      simp only [if_neg h, Map.get, List.lookup, hne]
      exact ih

theorem Map.get_set_other (m : Map) (k k' : String) (v : Value) (h : k' ≠ k) :
    (Map.set m k v).get k' = m.get k' := by
  induction m with
  | nil =>
    have hne : (k' == k) = false := by simpa using h
    simp [Map.set, Map.get, List.lookup, hne]
  | cons p m ih =>
    obtain ⟨k0, v0⟩ := p
    unfold Map.set
    by_cases h0 : k0 = k
    · subst h0
      have hne : (k' == k0) = false := by simpa using h
      simp [Map.get, List.lookup, hne]
    · simp only [if_neg h0, Map.get, List.lookup]
      cases hk : k' == k0 with
      | true => rfl
      | false => exact ih

/-- Copying `props` over `base` key by key leaves the keys that `props` does not
declare as they were. -/
theorem Map.get_foldl_set_of_not_mem (props base : Map) (k : String)
    (h : k ∉ props.map Prod.fst) :
    (props.foldl (fun out kv => Map.set out kv.1 kv.2) base).get k = base.get k := by
  induction props generalizing base with
  | nil => rfl
  | cons p ps ih =>
    simp only [List.map_cons, List.mem_cons, not_or] at h
    rw [List.foldl_cons, ih _ h.2, Map.get_set_other _ _ _ _ h.1]

/-- Copying `props`, a map (each key once), over `base` key by key gives every
declared key its declared value. -/
theorem Map.get_foldl_set_of_mem (props base : Map) (hnd : (props.map Prod.fst).Nodup)
    (k : String) (v : Value) (h : (k, v) ∈ props) :
    (props.foldl (fun out kv => Map.set out kv.1 kv.2) base).get k = some v := by
  induction props generalizing base with
  | nil => simp at h
  | cons p ps ih =>
    simp only [List.map_cons, List.nodup_cons] at hnd
    rw [List.foldl_cons]
    rcases List.mem_cons.1 h with e | e
    · subst e
      rw [Map.get_foldl_set_of_not_mem _ _ _ hnd.1, Map.get_set_same]
    · exact ih _ hnd.2 e

end cfn

namespace VpcEndpointConfigurator

/-- When the map literal of `updateHandler` is built without panic, the five
dereferenced fields are present and the output is the literal with the declared
properties copied over it. -/
theorem updateOutput_eq_some (serviceId : String) (sc : ec2.ServiceConfiguration)
    (props output : cfn.Map) (h : updateOutput serviceId sc props = some output) :
    ∃ serviceName dns name type value state,
      sc.ServiceName = some serviceName ∧ sc.PrivateDnsNameConfiguration = some dns ∧
      dns.Name = some name ∧ dns.Type_ = some type ∧ dns.Value = some value ∧
      dns.State = some state ∧
      output = props.foldl (fun out kv => cfn.Map.set out kv.1 kv.2)
        [ ("ServiceId", cfn.Value.string serviceId),
          ("ServiceName", cfn.Value.string serviceName),
          ("PrivateDnsNameConfigurationName", cfn.Value.string name),
          ("PrivateDnsNameConfigurationType", cfn.Value.string type),
          ("PrivateDnsNameConfigurationValue", cfn.Value.string value),
          ("PrivateDnsNameConfigurationState", cfn.Value.string state) ] := by
  unfold updateOutput at h
  cases h1 : sc.ServiceName with
  | none => simp [h1] at h
  | some serviceName =>
    cases h2 : sc.PrivateDnsNameConfiguration with
    | none => simp [h1, h2] at h
    | some dns =>
      cases h3 : dns.Name with
      | none => simp [h1, h2, h3] at h
      | some name =>
        cases h4 : dns.Type_ with
        | none => simp [h1, h2, h3, h4] at h
        | some type =>
          cases h5 : dns.Value with
          | none => simp [h1, h2, h3, h4, h5] at h
          | some value =>
            cases h6 : dns.State with
            | none => simp [h1, h2, h3, h4, h5, h6] at h
            | some state =>
              simp [h1, h2, h3, h4, h5, h6] at h
              exact ⟨serviceName, dns, name, type, value, state, rfl, rfl, h3, h4, h5, h6, h.symm⟩

theorem sendThen_returned (w : World) (pre : List Effect) (resp r : cfn.Response)
    (e err : Option String)
    (h : (sendThen w pre resp (Outcome.returned resp e)).out = Outcome.returned r err) :
    r = resp ∧ err = e := by
  unfold sendThen at h
  simp only at h
  split at h
  · cases h
  · cases h
    exact ⟨rfl, rfl⟩

theorem failed_ne_success : cfn.StatusFailed ≠ cfn.StatusSuccess := by decide

/-- An Update with a present service id that returns an envelope of status
Success went through both reads, and its data is the output map. -/
theorem updateHandler_success (w : World) (config : Config) (evt : cfn.Event)
    (r : cfn.Response) (err : Option String)
    (hid : 2 ≤ (strings.Split evt.PhysicalResourceID PhyIdSeparator).length)
    (hout : (updateHandler w config evt).out = Outcome.returned r err)
    (hok : r.Status = cfn.StatusSuccess) :
    ∃ sc scs output,
      w.DescribeVpcEndpointServiceConfigurations
        [(strings.Split evt.PhysicalResourceID PhyIdSeparator).getD 1 ""] = Except.ok (sc :: scs) ∧
      updateOutput ((strings.Split evt.PhysicalResourceID PhyIdSeparator).getD 1 "") sc
        evt.ResourceProperties = some output ∧
      r.Data = output := by
  unfold updateHandler at hout
  simp only [if_neg (Nat.not_lt.2 hid)] at hout
  split at hout
  · obtain ⟨rfl, -⟩ := sendThen_returned _ _ _ _ _ _ hout
    exact absurd (by simpa using hok) failed_ne_success
  · simp [sendThen] at hout
    split at hout <;> cases hout
  · rename_i sc scs hcfg
    split at hout
    · cases hout
    · rename_i output houtput
      split at hout
      · obtain ⟨rfl, -⟩ := sendThen_returned _ _ _ _ _ _ hout
        exact absurd (by simpa using hok) failed_ne_success
      · split at hout
        · cases hout
        · split at hout
          · obtain ⟨rfl, -⟩ := sendThen_returned _ _ _ _ _ _ hout
            exact absurd (by simpa using hok) failed_ne_success
          · split at hout
            · obtain ⟨rfl, -⟩ := sendThen_returned _ _ _ _ _ _ hout
              exact absurd (by simpa using hok) failed_ne_success
            · obtain ⟨rfl, -⟩ := sendThen_returned _ _ _ _ _ _ hout
              exact ⟨sc, scs, output, hcfg, houtput, by simp⟩

end VpcEndpointConfigurator

namespace VpcEndpointConfigurator

/-- C17 (amended): for an Update event with a present service id whose declared
properties form a map (each key once), when `updateHandler` returns an envelope
of status Success, the data of the envelope holds every declared property with
its declared value, and holds each of the six remote-read keys (`ServiceId`,
`ServiceName`, `PrivateDnsNameConfigurationName`, `...Type`, `...Value`,
`...State`) with its remote-read value unless a declared property has that
name. -/
theorem C17_output_merge (w : World) (config : Config) (evt : cfn.Event)
    (r : cfn.Response) (err : Option String)
    (hid : 2 ≤ (strings.Split evt.PhysicalResourceID PhyIdSeparator).length)
    (hkeys : (evt.ResourceProperties.map Prod.fst).Nodup)
    (hout : (updateHandler w config evt).out = Outcome.returned r err)
    (hok : r.Status = cfn.StatusSuccess) :
    (∀ k v, (k, v) ∈ evt.ResourceProperties → r.Data.get k = some v) ∧
    ∃ sc scs serviceName dns name type value state,
      w.DescribeVpcEndpointServiceConfigurations
        [(strings.Split evt.PhysicalResourceID PhyIdSeparator).getD 1 ""] = Except.ok (sc :: scs) ∧
      sc.ServiceName = some serviceName ∧ sc.PrivateDnsNameConfiguration = some dns ∧
      dns.Name = some name ∧ dns.Type_ = some type ∧ dns.Value = some value ∧
      dns.State = some state ∧
      ∀ k remote,
        (k, remote) ∈
          [ ("ServiceId", (strings.Split evt.PhysicalResourceID PhyIdSeparator).getD 1 ""),
            ("ServiceName", serviceName),
            ("PrivateDnsNameConfigurationName", name),
            ("PrivateDnsNameConfigurationType", type),
            ("PrivateDnsNameConfigurationValue", value),
            ("PrivateDnsNameConfigurationState", state) ] →
        k ∉ evt.ResourceProperties.map Prod.fst →
        r.Data.get k = some (cfn.Value.string remote) := by
  obtain ⟨sc, scs, output, hcfg, houtput, hdata⟩ :=
    updateHandler_success w config evt r err hid hout hok
  obtain ⟨serviceName, dns, name, type, value, state, h1, h2, h3, h4, h5, h6, hlit⟩ :=
    updateOutput_eq_some _ _ _ _ houtput
  rw [hdata, hlit]
  refine ⟨fun k v hkv => cfn.Map.get_foldl_set_of_mem _ _ hkeys k v hkv,
    sc, scs, serviceName, dns, name, type, value, state, hcfg, h1, h2, h3, h4, h5, h6, ?_⟩
  intro k remote hmem hnot
  rw [cfn.Map.get_foldl_set_of_not_mem _ _ _ hnot]
  simp only [List.mem_cons, Prod.mk.injEq, List.mem_singleton, List.not_mem_nil, or_false] at hmem
  rcases hmem with ⟨rfl, rfl⟩ | ⟨rfl, rfl⟩ | ⟨rfl, rfl⟩ | ⟨rfl, rfl⟩ | ⟨rfl, rfl⟩ | ⟨rfl, rfl⟩ <;>
    simp [cfn.Map.get, List.lookup]

/-- C17, witness: an Update of `vpce-svc-1` that declares `PrivateDnsName` and
`ServiceName`; the declared `ServiceName` wins over the remote one. -/
theorem C17_output_merge_witness :
    (updateHandler (Sample.ec2World ["P1"]) (Sample.ec2Config ["P1"])
        (Sample.event "Update" "VpcEndpointService:vpce-svc-1"
          [ ("PrivateDnsName", cfn.Value.string "proxy.example"),
            ("ServiceName", cfn.Value.string "declared") ])).out
      = Outcome.returned (buildResponse (Sample.event "Update" "VpcEndpointService:vpce-svc-1"
          [ ("PrivateDnsName", cfn.Value.string "proxy.example"),
            ("ServiceName", cfn.Value.string "declared") ]) cfn.StatusSuccess
          "updated successfully" (some "vpce-svc-1")
          [ ("ServiceId", cfn.Value.string "vpce-svc-1"),
            ("ServiceName", cfn.Value.string "declared"),
            ("PrivateDnsNameConfigurationName", cfn.Value.string "_x"),
            ("PrivateDnsNameConfigurationType", cfn.Value.string "TXT"),
            ("PrivateDnsNameConfigurationValue", cfn.Value.string "v"),
            ("PrivateDnsNameConfigurationState", cfn.Value.string "verified"),
            ("PrivateDnsName", cfn.Value.string "proxy.example") ]) none ∧
    (∀ k v, (k, v) ∈ (Sample.event "Update" "VpcEndpointService:vpce-svc-1"
          [ ("PrivateDnsName", cfn.Value.string "proxy.example"),
            ("ServiceName", cfn.Value.string "declared") ]).ResourceProperties →
      (buildResponse (Sample.event "Update" "VpcEndpointService:vpce-svc-1"
          [ ("PrivateDnsName", cfn.Value.string "proxy.example"),
            ("ServiceName", cfn.Value.string "declared") ]) cfn.StatusSuccess
          "updated successfully" (some "vpce-svc-1")
          [ ("ServiceId", cfn.Value.string "vpce-svc-1"),
            ("ServiceName", cfn.Value.string "declared"),
            ("PrivateDnsNameConfigurationName", cfn.Value.string "_x"),
            ("PrivateDnsNameConfigurationType", cfn.Value.string "TXT"),
            ("PrivateDnsNameConfigurationValue", cfn.Value.string "v"),
            ("PrivateDnsNameConfigurationState", cfn.Value.string "verified"),
            ("PrivateDnsName", cfn.Value.string "proxy.example") ]).Data.get k = some v) :=
  ⟨rfl,
    (C17_output_merge (Sample.ec2World ["P1"]) (Sample.ec2Config ["P1"])
      (Sample.event "Update" "VpcEndpointService:vpce-svc-1"
        [ ("PrivateDnsName", cfn.Value.string "proxy.example"),
          ("ServiceName", cfn.Value.string "declared") ]) _ none
      (by decide) (by decide) rfl (by decide)).1⟩

/-- C17, counterexample: an Update event whose prior physical id is the bare
constant `VpcEndpointService` and which declares four properties.
`updateHandler` returns an envelope of status `SUCCESS` whose data map is empty:
the declared `PrivateDnsName` is not in it. -/
theorem C17_counterexample :
    ∃ resp, (updateHandler (Sample.ec2World ["P1"]) (Sample.ec2Config ["P1"])
          (Sample.event "Update" "VpcEndpointService" Sample.ec2Props)).out
        = Outcome.returned resp none ∧
      resp.Status = "SUCCESS" ∧ resp.Data = [] ∧ resp.Data.get "PrivateDnsName" = none ∧
      (Sample.event "Update" "VpcEndpointService" Sample.ec2Props).ResourceProperties.get
          "PrivateDnsName" = some (cfn.Value.string "proxy.example") :=
  ⟨_, rfl, by decide, rfl, rfl, rfl⟩

end VpcEndpointConfigurator

/-! ## Envelopes and remote calls of one invocation -/

namespace VpcEndpointConfigurator

theorem sends_append_send (pre : List Effect) (resp : cfn.Response) :
    sends (pre ++ [Effect.send resp]) = sends pre ++ [resp] := by
  induction pre with
  | nil => rfl
  | cons e es ih => cases e <;> simp [sends, ih]

theorem sendThen_returned_sends (w : World) (pre : List Effect) (resp : cfn.Response)
    (next : Outcome) (hpre : sends pre = [])
    (hnext : next = Outcome.panicked ∨ ∃ e, next = Outcome.returned resp e) :
    ∀ r err, (sendThen w pre resp next).out = Outcome.returned r err →
      sends (sendThen w pre resp next).trace = [r] := by
  intro r err h
  unfold sendThen at h ⊢
  simp only at h ⊢
  rw [sends_append_send, hpre]
  split at h
  · cases h
  · rcases hnext with rfl | ⟨e, rfl⟩
    · cases h
    · cases h; rfl

theorem panicked_returned_sends (t : List Effect) :
    ∀ r err, ({ trace := t, out := Outcome.panicked } : Run).out = Outcome.returned r err →
      sends ({ trace := t, out := Outcome.panicked } : Run).trace = [r] := by
  intro r err h
  cases h

theorem deleteHandler_returned_sends (w : World) (config : Config) (evt : cfn.Event) :
    ∀ r err, (deleteHandler w config evt).out = Outcome.returned r err →
      sends (deleteHandler w config evt).trace = [r] := by
  unfold deleteHandler
  simp only []
  repeat' split
  all_goals first
    | exact panicked_returned_sends _
    | (apply sendThen_returned_sends <;> first | rfl | exact Or.inl rfl | exact Or.inr ⟨_, rfl⟩)

theorem updateHandler_returned_sends (w : World) (config : Config) (evt : cfn.Event) :
    ∀ r err, (updateHandler w config evt).out = Outcome.returned r err →
      sends (updateHandler w config evt).trace = [r] := by
  unfold updateHandler
  simp only []
  repeat' split
  all_goals first
    | exact panicked_returned_sends _
    | (apply sendThen_returned_sends <;> first | rfl | exact Or.inl rfl | exact Or.inr ⟨_, rfl⟩)

theorem createHandler_returned_sends (w : World) (config : Config) (evt : cfn.Event) :
    ∀ r err, (createHandler w config evt).out = Outcome.returned r err →
      sends (createHandler w config evt).trace = [r] := by
  unfold createHandler
  simp only []
  repeat' split
  all_goals first
    | exact panicked_returned_sends _
    | (apply sendThen_returned_sends <;> first | rfl | exact Or.inl rfl | exact Or.inr ⟨_, rfl⟩)

/-- Whenever the endpoint-service `handler` returns, it attempted the delivery
of exactly one envelope, the one it returns. -/
theorem handler_returned_sends_once (w : World) (evt : cfn.Event) :
    ∀ r err, (handler w evt).out = Outcome.returned r err →
      sends (handler w evt).trace = [r] := by
  unfold handler readPropertyErrorHandler
  simp only []
  repeat' split
  all_goals first
    | exact panicked_returned_sends _
    | exact updateHandler_returned_sends _ _ _
    | exact createHandler_returned_sends _ _ _
    | exact deleteHandler_returned_sends _ _ _
    | (apply sendThen_returned_sends <;> first | rfl | exact Or.inl rfl | exact Or.inr ⟨_, rfl⟩)

/-- C19, the code at the failing input: an Update event with the prior token
`VpcEndpointService:vpce-svc-1` whose `NetworkLoadBalancerArns` is the list
`["arn:nlb-1", 5]`, against a remote system in which every call would succeed.
`handler` ends in the panic of the assertion `v.(string)`: it attempted the
delivery of no envelope and returns none. -/
theorem C19_no_envelope_on_panic :
    sends (handler (Sample.ec2World ["P1"])
        (Sample.event "Update" "VpcEndpointService:vpce-svc-1"
          Sample.ec2PropsMistypedElement)).trace = [] ∧
    (sends (handler (Sample.ec2World ["P1"])
        (Sample.event "Update" "VpcEndpointService:vpce-svc-1"
          Sample.ec2PropsMistypedElement)).trace).length ≠ 1 ∧
    (handler (Sample.ec2World ["P1"])
        (Sample.event "Update" "VpcEndpointService:vpce-svc-1"
          Sample.ec2PropsMistypedElement)).out = Outcome.panicked :=
  ⟨rfl, by decide, rfl⟩

end VpcEndpointConfigurator

namespace VpcEndpointConfigurator

theorem calls_append_send (pre : List Effect) (resp : cfn.Response) :
    calls (pre ++ [Effect.send resp]) = calls pre := by
  induction pre with
  | nil => rfl
  | cons e es ih => cases e <;> simp [calls, ih]

end VpcEndpointConfigurator

namespace VpcEndpointConfigurator

end VpcEndpointConfigurator

namespace VpcEndpointConfigurator

end VpcEndpointConfigurator

/-! ## The empty configuration read -/

namespace VpcEndpointConfigurator

/-- In an Update with a present service id whose configuration read succeeds
with an empty list, the Failed envelope is delivered and the handler then
panics: it never returns. -/
theorem updateHandler_empty_read (w : World) (config : Config) (evt : cfn.Event)
    (hid : 2 ≤ (strings.Split evt.PhysicalResourceID PhyIdSeparator).length)
    (hcfg : w.DescribeVpcEndpointServiceConfigurations
        [(strings.Split evt.PhysicalResourceID PhyIdSeparator).getD 1 ""] = Except.ok []) :
    (updateHandler w config evt).trace
      = [Effect.call (Call.DescribeVpcEndpointServiceConfigurations
          [(strings.Split evt.PhysicalResourceID PhyIdSeparator).getD 1 ""]),
         Effect.send (buildResponse evt cfn.StatusFailed "service configurations array is empty"
           (some ((strings.Split evt.PhysicalResourceID PhyIdSeparator).getD 1 "")) [])] ∧
    ∀ r err, (updateHandler w config evt).out ≠ Outcome.returned r err := by
  unfold updateHandler
  simp only [if_neg (Nat.not_lt.2 hid), hcfg, sendThen]
  refine ⟨by simp, ?_⟩
  intro r err
  split <;> simp

/-- C21, the code at the failing input: an Update event with the prior token
`VpcEndpointService:vpce-svc-1`, and a configuration read that succeeds with an
empty list.  `updateHandler` delivers the Failed envelope with the reason
`service configurations array is empty`, then evaluates `err.Error()` on the nil
error of the successful read (line 212) and panics: it does not return, neither
an envelope nor an error. -/
theorem C21_empty_read_panics :
    (updateHandler Sample.ec2WorldNoConfigurations (Sample.ec2Config ["P1"])
        (Sample.event "Update" "VpcEndpointService:vpce-svc-1" Sample.ec2Props)).trace
      = [Effect.call (Call.DescribeVpcEndpointServiceConfigurations ["vpce-svc-1"]),
         Effect.send (buildResponse
           (Sample.event "Update" "VpcEndpointService:vpce-svc-1" Sample.ec2Props)
           cfn.StatusFailed "service configurations array is empty" (some "vpce-svc-1") [])] ∧
    (updateHandler Sample.ec2WorldNoConfigurations (Sample.ec2Config ["P1"])
        (Sample.event "Update" "VpcEndpointService:vpce-svc-1" Sample.ec2Props)).out
      = Outcome.panicked ∧
    (handler Sample.ec2WorldNoConfigurations
        (Sample.event "Update" "VpcEndpointService:vpce-svc-1" Sample.ec2Props)).out
      = Outcome.panicked :=
  ⟨rfl, rfl, rfl⟩

end VpcEndpointConfigurator

/-! ## Webhook Delete with an unparsable id -/

namespace WebhookManager

/-- When the first `"-"` of a token is followed at once by another `"-"`, segment
1 is empty, and `ParseInt` rejects it. -/
theorem double_dash_unparsable (a rest : String) (ha : '-' ∉ a.data) :
    (strings.Split (a ++ "-" ++ ("-" ++ rest)) PhyIdSeparator).getD 1 "" = "" ∧
    strconv.ParseInt "" = (0, some strconv.NumError.ErrSyntax) := by
  constructor
  · have h1 := strings.Split_tag_append '-' a ("-" ++ rest) ha
    have h2 := strings.Split_tag_append '-' "" rest (by simp)
    have e1 : (String.mk ['-'] : String) = "-" := rfl
    have e2 : ("" : String) ++ "-" ++ rest = "-" ++ rest := by simp
    rw [e1] at h1 h2
    rw [e2] at h2
    rw [h2] at h1
    have e3 : PhyIdSeparator = "-" := rfl
    rw [e3, h1]
    rfl
  · decide

/-- A Delete whose physical id contains `"-"` and whose segment 1 is rejected by
`ParseInt` only delivers a Success envelope with the physical id of the event. -/
theorem deleteHandler_unparsable (w : World) (config : Config) (evt : cfn.Event)
    (e : strconv.NumError)
    (hsep : '-' ∈ evt.PhysicalResourceID.data)
    (hparse : (strconv.ParseInt
        ((strings.Split evt.PhysicalResourceID PhyIdSeparator).getD 1 "")).2 = some e) :
    (deleteHandler w config evt).trace
      = [Effect.send (buildResponse evt cfn.StatusSuccess none)] ∧
    (buildResponse evt cfn.StatusSuccess none).Status = cfn.StatusSuccess ∧
    (buildResponse evt cfn.StatusSuccess none).PhysicalResourceID = evt.PhysicalResourceID ∧
    (w.Send (buildResponse evt cfn.StatusSuccess none) = none →
      (deleteHandler w config evt).out
        = Outcome.returned (buildResponse evt cfn.StatusSuccess none) none) := by
  have hid : 2 ≤ (strings.Split evt.PhysicalResourceID PhyIdSeparator).length :=
    strings.Split_length_of_mem '-' _ hsep
  have hne : evt.PhysicalResourceID ≠ "" := by
    intro h
    rw [h] at hsep
    simp at hsep
  have hp : strconv.ParseInt ((strings.Split evt.PhysicalResourceID PhyIdSeparator).getD 1 "")
      = ((strconv.ParseInt
          ((strings.Split evt.PhysicalResourceID PhyIdSeparator).getD 1 "")).1, some e) := by
    rw [← hparse]
  refine ⟨?_, buildResponse_Status_hook _ _ _, by simp [buildResponse, hne], ?_⟩
  · unfold deleteHandler
    simp only [if_neg (Nat.not_lt.2 hid)]
    rw [hp]
    simp [sendThen]
  · intro hs
    unfold deleteHandler
    simp only [if_neg (Nat.not_lt.2 hid)]
    rw [hp]
    simp only [sendThen, hs]

theorem token_double_dash (a rest : String) :
    a ++ "--" ++ rest = a ++ "-" ++ ("-" ++ rest) := by
  apply String.ext
  simp

/-- C22 (amended): for a Delete event whose physical id contains `"-"` and whose
segment 1 (the text between the first `"-"` and the next one, or the end) is
rejected by `ParseInt` (base 10, 64 bits), `deleteHandler` performs a single
effect, the delivery of an envelope of status Success with the physical id of
the event: the remote delete-hook operation is not called.  The envelope is
returned with a nil error whenever its delivery succeeds.  The same holds for
every token in which the first `"-"` is followed at once by a second `"-"`
(`a ++ "--" ++ rest` with no `"-"` in `a`), whose segment 1 is empty. -/
theorem C22_unparsable_id_succeeds (w : World) (config : Config) (evt evt2 : cfn.Event)
    (e : strconv.NumError) (a rest : String)
    (hsep : '-' ∈ evt.PhysicalResourceID.data)
    (hparse : (strconv.ParseInt
        ((strings.Split evt.PhysicalResourceID PhyIdSeparator).getD 1 "")).2 = some e)
    (ha : '-' ∉ a.data)
    (hform : evt2.PhysicalResourceID = a ++ "--" ++ rest) :
    ((deleteHandler w config evt).trace
        = [Effect.send (buildResponse evt cfn.StatusSuccess none)] ∧
      (buildResponse evt cfn.StatusSuccess none).Status = cfn.StatusSuccess ∧
      (buildResponse evt cfn.StatusSuccess none).PhysicalResourceID = evt.PhysicalResourceID ∧
      (w.Send (buildResponse evt cfn.StatusSuccess none) = none →
        (deleteHandler w config evt).out
          = Outcome.returned (buildResponse evt cfn.StatusSuccess none) none)) ∧
    ((strings.Split evt2.PhysicalResourceID PhyIdSeparator).getD 1 "" = "" ∧
      (deleteHandler w config evt2).trace
        = [Effect.send (buildResponse evt2 cfn.StatusSuccess none)] ∧
      (buildResponse evt2 cfn.StatusSuccess none).Status = cfn.StatusSuccess ∧
      (buildResponse evt2 cfn.StatusSuccess none).PhysicalResourceID
        = evt2.PhysicalResourceID ∧
      (w.Send (buildResponse evt2 cfn.StatusSuccess none) = none →
        (deleteHandler w config evt2).out
          = Outcome.returned (buildResponse evt2 cfn.StatusSuccess none) none)) := by
  refine ⟨deleteHandler_unparsable w config evt e hsep hparse, ?_⟩
  have hseg : (strings.Split evt2.PhysicalResourceID PhyIdSeparator).getD 1 "" = "" := by
    rw [hform, token_double_dash]
    exact (double_dash_unparsable a rest ha).1
  have hsep2 : '-' ∈ evt2.PhysicalResourceID.data := by
    rw [hform]
    simp
  have hparse2 : (strconv.ParseInt
      ((strings.Split evt2.PhysicalResourceID PhyIdSeparator).getD 1 "")).2
      = some strconv.NumError.ErrSyntax := by
    rw [hseg]
    decide
  exact ⟨hseg, deleteHandler_unparsable w config evt2 _ hsep2 hparse2⟩

/-- C22, witness: the tokens `githubwebhookmanager-abc` and
`githubwebhookmanager--5`. -/
theorem C22_unparsable_id_succeeds_witness :
    '-' ∈ (Sample.event "Delete" "githubwebhookmanager-abc" []).PhysicalResourceID.data ∧
    (strconv.ParseInt ((strings.Split (Sample.event "Delete" "githubwebhookmanager-abc"
      []).PhysicalResourceID PhyIdSeparator).getD 1 "")).2 = some strconv.NumError.ErrSyntax ∧
    '-' ∉ "githubwebhookmanager".data ∧
    (Sample.event "Delete" "githubwebhookmanager--5" []).PhysicalResourceID
      = "githubwebhookmanager" ++ "--" ++ "5" ∧
    (deleteHandler (Sample.hookWorld 0) Sample.hookConfig
        (Sample.event "Delete" "githubwebhookmanager-abc" [])).out
      = Outcome.returned (buildResponse (Sample.event "Delete" "githubwebhookmanager-abc" [])
          cfn.StatusSuccess none) none ∧
    (deleteHandler (Sample.hookWorld 0) Sample.hookConfig
        (Sample.event "Delete" "githubwebhookmanager--5" [])).trace
      = [Effect.send (buildResponse (Sample.event "Delete" "githubwebhookmanager--5" [])
          cfn.StatusSuccess none)] :=
  have h := C22_unparsable_id_succeeds (Sample.hookWorld 0) Sample.hookConfig
    (Sample.event "Delete" "githubwebhookmanager-abc" [])
    (Sample.event "Delete" "githubwebhookmanager--5" []) strconv.NumError.ErrSyntax
    "githubwebhookmanager" "5" (by decide) (by decide) (by decide) (by decide)
  ⟨by decide, by decide, by decide, by decide, h.1.2.2.2 rfl, h.2.2.1⟩

/-- C22, counterexample: the token `githubwebhookmanager-1--2` has two
consecutive dashes, but they come after the first `"-"`: segment 1 is `1`, which
`ParseInt` accepts, and `deleteHandler` calls the remote delete-hook operation
for hook 1. -/
theorem C22_counterexample :
    ("githubwebhookmanager-1--2" : String) = "githubwebhookmanager-1" ++ "--" ++ "2" ∧
    strings.Split "githubwebhookmanager-1--2" PhyIdSeparator
      = ["githubwebhookmanager", "1", "", "2"] ∧
    strconv.ParseInt ((strings.Split "githubwebhookmanager-1--2" PhyIdSeparator).getD 1 "")
      = (1, none) ∧
    (deleteHandler (Sample.hookWorld 0) Sample.hookConfig
        (Sample.event "Delete" "githubwebhookmanager-1--2" [])).trace
      = [Effect.call (Call.DeleteHook "owner" "repo" 1),
         Effect.send (buildResponse (Sample.event "Delete" "githubwebhookmanager-1--2" [])
           cfn.StatusSuccess none)] :=
  ⟨by decide, by decide, by decide, rfl⟩

end WebhookManager

/-! ## The push filter -/

namespace strings

/-- The test `HasPrefix s p` holds exactly when `s` is `p` followed by some text. -/
theorem HasPrefix_iff (s p : String) : HasPrefix s p = true ↔ ∃ rest : String, s = p ++ rest := by
  unfold HasPrefix
  rw [List.isPrefixOf_iff_prefix]
  constructor
  · rintro ⟨t, ht⟩
    exact ⟨String.mk t, String.ext (by simp [ht])⟩
  · rintro ⟨rest, rfl⟩
    exact ⟨rest.data, by simp⟩

end strings

namespace TriggerFn

theorem findMatchFile_iff (filter : String) (files : List String) :
    findMatchFile filter files = true ↔ ∃ file ∈ files, strings.HasPrefix file filter = true := by
  induction files with
  | nil => simp [findMatchFile]
  | cons f fs ih =>
    unfold findMatchFile
    by_cases h : strings.HasPrefix f filter = true
    · simp [h]
    · simp [h, ih]

theorem findMatch_iff (files filters : List String) :
    findMatch files filters = true
      ↔ ∃ filter ∈ filters, ∃ file ∈ files, strings.HasPrefix file filter = true := by
  induction filters with
  | nil => simp [findMatch]
  | cons f fs ih =>
    unfold findMatch
    by_cases h : findMatchFile f files = true
    · rw [if_pos h]
      simp only [List.mem_cons, true_iff]
      exact ⟨f, Or.inl rfl, (findMatchFile_iff f files).1 h⟩
    · have h' : ¬ ∃ file ∈ files, strings.HasPrefix file f = true :=
        fun hex => h ((findMatchFile_iff f files).2 hex)
      rw [if_neg h, ih]
      simp only [List.mem_cons]
      constructor
      · rintro ⟨g, hg, hex⟩
        exact ⟨g, Or.inr hg, hex⟩
      · rintro ⟨g, hg | hg, hex⟩
        · subst hg; exact absurd hex h'
        · exact ⟨g, hg, hex⟩

theorem findMatch_nil_filters (files : List String) : findMatch files [] = false := rfl

theorem checkCommits_nil_filters (commits : List Commit) : checkCommits commits [] = false := by
  induction commits with
  | nil => rfl
  | cons c cs ih => simp [checkCommits, findMatch_nil_filters, ih]

/-- C23: `checkCommits` returns true exactly when there are a commit of the
push, a file path in the added, modified or removed list of that commit, and a
filter, such that the path is the filter followed by some text (the filter is a
prefix of the path).  It is false for an empty list of commits and for an empty
list of filters, and with the empty string among the filters it is true for
every push in which some commit lists at least one file. -/
theorem C23_push_filter (commits : List Commit) (filters : List String) :
    (checkCommits commits filters = true ↔
      ∃ commit ∈ commits, ∃ file,
        (file ∈ commit.Added ∨ file ∈ commit.Modified ∨ file ∈ commit.Removed) ∧
        ∃ filter ∈ filters, ∃ rest : String, file = filter ++ rest) ∧
    checkCommits [] filters = false ∧
    checkCommits commits [] = false ∧
    ("" ∈ filters →
      (∃ commit ∈ commits, ∃ file,
        file ∈ commit.Added ∨ file ∈ commit.Modified ∨ file ∈ commit.Removed) →
      checkCommits commits filters = true) := by
  have key : checkCommits commits filters = true ↔
      ∃ commit ∈ commits, ∃ file,
        (file ∈ commit.Added ∨ file ∈ commit.Modified ∨ file ∈ commit.Removed) ∧
        ∃ filter ∈ filters, ∃ rest : String, file = filter ++ rest := by
    induction commits with
    | nil => simp [checkCommits]
    | cons c cs ih =>
      have hc : (findMatch c.Modified filters || findMatch c.Added filters
            || findMatch c.Removed filters) = true ↔
          ∃ file, (file ∈ c.Added ∨ file ∈ c.Modified ∨ file ∈ c.Removed) ∧
            ∃ filter ∈ filters, ∃ rest : String, file = filter ++ rest := by
        simp only [Bool.or_eq_true, findMatch_iff, strings.HasPrefix_iff]
        constructor
        · rintro ((⟨g, hg, f, hf, hp⟩ | ⟨g, hg, f, hf, hp⟩) | ⟨g, hg, f, hf, hp⟩)
          · exact ⟨f, Or.inr (Or.inl hf), g, hg, hp⟩
          · exact ⟨f, Or.inl hf, g, hg, hp⟩
          · exact ⟨f, Or.inr (Or.inr hf), g, hg, hp⟩
        · rintro ⟨f, hf | hf | hf, g, hg, hp⟩
          · exact Or.inl (Or.inr ⟨g, hg, f, hf, hp⟩)
          · exact Or.inl (Or.inl ⟨g, hg, f, hf, hp⟩)
          · exact Or.inr ⟨g, hg, f, hf, hp⟩
      unfold checkCommits
      by_cases h : (findMatch c.Modified filters || findMatch c.Added filters
            || findMatch c.Removed filters) = true
      · rw [if_pos h]
        simp only [true_iff]
        exact ⟨c, List.mem_cons_self _ _, hc.1 h⟩
      · rw [if_neg h, ih]
        simp only [List.mem_cons]
        constructor
        · rintro ⟨d, hd, hex⟩
          exact ⟨d, Or.inr hd, hex⟩
        · rintro ⟨d, hd | hd, hex⟩
          · subst hd; exact absurd (hc.2 hex) h
          · exact ⟨d, hd, hex⟩
  refine ⟨key, rfl, checkCommits_nil_filters commits, ?_⟩
  rintro hempty ⟨c, hc, f, hf⟩
  exact key.2 ⟨c, hc, f, hf, "", hempty, f, by simp⟩

/-- C23, witness: a push that touches `docs/readme.md` against the filters
`src/` and the empty string, and a push that removes `src/lambda/main.go`
against the filter `src/`. -/
theorem C23_push_filter_witness :
    "" ∈ ["src/", ""] ∧
    checkCommits [{ Added := [], Removed := [], Modified := ["docs/readme.md"] }] ["src/", ""]
      = true ∧
    checkCommits [{ Added := [], Removed := [], Modified := ["docs/readme.md"] }] ["src/"]
      = false ∧
    checkCommits [{ Added := [], Removed := ["src/lambda/main.go"], Modified := [] }] ["src/"]
      = true :=
  ⟨by decide,
    (C23_push_filter [{ Added := [], Removed := [], Modified := ["docs/readme.md"] }]
      ["src/", ""]).2.2.2 (by decide)
      ⟨_, List.mem_singleton.2 rfl, "docs/readme.md", Or.inr (Or.inl (List.mem_singleton.2 rfl))⟩,
    by decide, by decide⟩

end TriggerFn
